import Mathlib

/-!
# input-overlay: settings dialog and overlay source

A shallow embedding of `io_settings_dialog.cpp` and `input_source.cpp`.
Widgets are records of the properties the handlers read and write, the
global objects (`io_config`, `libgamepad::hook_instance`) are explicit
components of the state every handler transforms. A slot is a function of
that state; the signals a widget setter emits while a slot runs are not
followed. What is declared outside the two files (enumerator values, field
types, flag constants, the mappings container, `overlay::load`,
`overlay::refresh_data`, `make_native_binding`) is a parameter of the
definitions that use it.
-/

namespace InputOverlay

/-! ## libgamepad objects reached through `libgamepad::hook_instance` -/

namespace gamepad

/-- The enumerators of `gamepad::button` named by `button_map`. -/
inductive button where
  | A | B | X | Y | RB | LB | GUIDE | L_THUMB | R_THUMB | BACK | START
  | DPAD_UP | DPAD_DOWN | DPAD_LEFT | DPAD_RIGHT
  deriving DecidableEq, Repr

/-- The enumerators of `gamepad::axis` named by `axis_map`. -/
inductive axis where
  | LEFT_STICK_X | LEFT_STICK_Y | RIGHT_STICK_X | RIGHT_STICK_Y
  | LEFT_TRIGGER | RIGHT_TRIGGER
  deriving DecidableEq, Repr

/-- The numeric values of the enumerators; they are declared in libgamepad,
so the embedding takes them as a parameter. -/
structure codes where
  of_button : button → Nat
  of_axis : axis → Nat

/-- A `gamepad::cfg::mappings` container in iteration order: each entry is
`(first, second)` = (native code, button or axis code). -/
abbrev cfg.mappings := List (Int × Nat)

/-- A `gamepad::cfg::binding`: its name and its two mapping tables. -/
structure cfg.binding where
  get_name : String
  get_button_mappings : cfg.mappings := []
  get_axis_mappings : cfg.mappings := []
  deriving DecidableEq, Repr

/-- A `gamepad::device`: id, display name and the binding assigned to it. -/
structure device where
  get_id : String
  get_name : String
  get_binding : cfg.binding
  deriving DecidableEq, Repr

/-- The state behind `libgamepad::hook_instance`: the device list and the
list of custom bindings. -/
structure hook where
  get_devices : List device := []
  get_bindings : List cfg.binding := []
  deriving DecidableEq, Repr

/-- `hook::get_device_by_id`: the position of the first device with that
id, `none` standing for the null pointer. -/
def hook.get_device_by_id (h : hook) (id : String) : Option Nat :=
  let i := h.get_devices.findIdx (fun d => d.get_id == id)
  if i < h.get_devices.length then some i else none

/-- The device a pointer returned by `get_device_by_id` points to. -/
def hook.device_at (h : hook) (i : Nat) : Option device := h.get_devices.get? i

/-- `hook::get_binding_by_name`: the first custom binding with that name,
`none` standing for the null pointer. -/
def hook.get_binding_by_name (h : hook) (name : String) : Option cfg.binding :=
  h.get_bindings.find? (fun b => b.get_name == name)

/-- `device::set_binding` on the device at position `i`. -/
def hook.set_binding (h : hook) (i : Nat) (b : cfg.binding) : hook :=
  { h with get_devices := h.get_devices.modify (fun d => { d with get_binding := b }) i }

end gamepad

/-! ## Toolkit widgets -/

/-- A `QComboBox` showing plain texts: the item texts and the current index
(`-1` when there is no current item). -/
structure QComboBox where
  items : List String := []
  currentIndex : Int := -1
  enabled : Bool := true
  deriving DecidableEq, Repr

/-- `QComboBox::count`. -/
def QComboBox.count (c : QComboBox) : Nat := c.items.length

/-- `QComboBox::findText` with the default exact, case-sensitive match: the
index of the first item with that text, or `-1`. -/
def QComboBox.findText (c : QComboBox) (text : String) : Int :=
  let i := c.items.indexOf text
  if i < c.items.length then (i : Int) else -1

/-- `QComboBox::addItem`: the item goes to the end; the first item put into
an empty box becomes the current one. -/
def QComboBox.addItem (c : QComboBox) (text : String) : QComboBox :=
  { c with
    items := c.items ++ [text],
    currentIndex := if c.items.isEmpty then 0 else c.currentIndex }

/-- `QComboBox::clear`. -/
def QComboBox.clear (c : QComboBox) : QComboBox :=
  { c with items := [], currentIndex := -1 }

/-- `QComboBox::setCurrentIndex`; an index outside the items clears the
current item. -/
def QComboBox.setCurrentIndex (c : QComboBox) (i : Int) : QComboBox :=
  { c with currentIndex := if 0 ≤ i ∧ i < (c.items.length : Int) then i else -1 }

/-- `QComboBox::currentText` of a box that is not editable: the text of the
current item, empty when there is none. -/
def QComboBox.currentText (c : QComboBox) : String :=
  if 0 ≤ c.currentIndex then c.items.getD c.currentIndex.toNat "" else ""

/-- The device box: each item carries the device name as text and the
device id as user data. -/
structure device_box where
  items : List (String × String) := []
  currentIndex : Int := -1
  deriving DecidableEq, Repr

/-- `cb_device->currentData().toString()`: the id stored with the current
item, the empty string when there is no current item. -/
def device_box.currentData (c : device_box) : String :=
  if 0 ≤ c.currentIndex then (c.items.getD c.currentIndex.toNat ("", "")).2 else ""

/-- A `QCheckBox`. -/
structure QCheckBox where
  checked : Bool := false
  enabled : Bool := true
  deriving DecidableEq, Repr

/-- A `QRadioButton`. -/
structure QRadioButton where
  checked : Bool := false
  deriving DecidableEq, Repr

/-- A `QPushButton`. -/
structure QPushButton where
  enabled : Bool := true
  deriving DecidableEq, Repr

/-- A `QSpinBox`: its value and the range the form gives it. -/
structure QSpinBox where
  value : Int := 0
  minimum : Int := 0
  maximum : Int := 99
  enabled : Bool := true
  deriving DecidableEq, Repr

/-- `QSpinBox::setValue`: the value is brought into the range of the box. -/
def QSpinBox.setValue (b : QSpinBox) (v : Int) : QSpinBox :=
  { b with value := max b.minimum (min b.maximum v) }

/-- The window-title box `cb_text`: the listed titles and the text it
currently shows. -/
structure title_box where
  items : List String := []
  currentText : String := ""
  enabled : Bool := true
  deriving DecidableEq, Repr

/-- A `QListWidgetItem`: its text and whether it is selected. -/
structure QListWidgetItem where
  text : String
  selected : Bool := false
  deriving DecidableEq, Repr

/-- A `QListWidget`: the rows from top to bottom, and the geometry of its
viewport (every row `rowHeight` pixels high, the content scrolled up by
`verticalOffset` pixels). -/
structure QListWidget where
  rows : List QListWidgetItem := []
  rowHeight : Nat := 17
  verticalOffset : Nat := 0
  enabled : Bool := true
  deriving DecidableEq, Repr

/-- `QListWidget::count`. -/
def QListWidget.count (l : QListWidget) : Nat := l.rows.length

/-- `QListWidget::addItem(text)`: a new unselected row at the bottom. -/
def QListWidget.addItem (l : QListWidget) (text : String) : QListWidget :=
  { l with rows := l.rows ++ [{ text := text }] }

/-- `QListWidget::itemAt(x, y)`: the item under the point `(x, y)` of the
viewport, in pixels; `none` is the null pointer returned where no row is
drawn. -/
def QListWidget.itemAt (l : QListWidget) (x y : Int) : Option QListWidgetItem :=
  if 0 ≤ x ∧ 0 ≤ y ∧ 0 < l.rowHeight then
    l.rows.get? ((y.toNat + l.verticalOffset) / l.rowHeight)
  else none

/-- `QListWidget::selectedItems`. -/
def QListWidget.selectedItems (l : QListWidget) : List QListWidgetItem :=
  l.rows.filter (fun it => it.selected)

/-- `qDeleteAll(list_filters->selectedItems())`: deleting an item takes it
out of its list widget, so the selected rows disappear. -/
def QListWidget.deleteSelected (l : QListWidget) : QListWidget :=
  { l with rows := l.rows.filter (fun it => !it.selected) }

/-- The texts of the rows, top to bottom. -/
def QListWidget.texts (l : QListWidget) : List String := l.rows.map (fun it => it.text)

/-- A child `QLineEdit`: its object name and its text. -/
structure QLineEdit where
  objectName : String
  text : String := ""
  deriving DecidableEq, Repr

/-! ## Configuration -/

/-- The `io_config::io_window_filters` object. -/
structure window_filters where
  filters : List String := []
  regex : Bool := false
  whitelist : Bool := false
  deriving DecidableEq, Repr

/-- Modelled from the spec: `add_filter` is declared outside the given
sources; it appends the title to the filter list. -/
def window_filters.add_filter (w : window_filters) (f : String) : window_filters :=
  { w with filters := w.filters ++ [f] }

/-- Modelled from the spec: `remove_filter` is declared outside the given
sources; `remove_filter(i)` removes the entry at index `i`. -/
def window_filters.remove_filter (w : window_filters) (i : Nat) : window_filters :=
  { w with filters := w.filters.eraseIdx i }

/-- `set_regex`. -/
def window_filters.set_regex (w : window_filters) (b : Bool) : window_filters :=
  { w with regex := b }

/-- `set_whitelist`. -/
def window_filters.set_whitelist (w : window_filters) (b : Bool) : window_filters :=
  { w with whitelist := b }

/-- The variables of namespace `io_config` the dialog reads and writes. -/
structure io_config where
  uiohook : Bool := false
  gamepad : Bool := false
  overlay : Bool := false
  control : Bool := false
  remote : Bool := false
  log_flag : Bool := false
  regex : Bool := false
  port : Int := 0
  filter_mode : Int := 0
  use_dinput : Bool := false
  io_window_filters : window_filters := {}
  deriving DecidableEq, Repr

/-! ## The settings dialog -/

/-- The widgets of `Ui::io_config_dialog` the dialog code touches. Tool tips,
the status label, the style sheet and the refresh timer are presentation
only: no handler reads them, and they are not part of the state. -/
structure Ui.io_config_dialog where
  cb_iohook : QCheckBox := {}
  cb_gamepad_hook : QCheckBox := {}
  cb_enable_overlay : QCheckBox := {}
  cb_enable_control : QCheckBox := {}
  cb_enable_remote : QCheckBox := {}
  cb_log : QCheckBox := {}
  cb_regex : QCheckBox := {}
  box_port : QSpinBox := {}
  box_refresh_rate : QSpinBox := {}
  box_connections : QComboBox := {}
  btn_refresh : QPushButton := {}
  btn_refresh_cb : QPushButton := {}
  btn_add : QPushButton := {}
  btn_remove : QPushButton := {}
  cb_list_mode : QComboBox := {}
  cb_text : title_box := {}
  list_filters : QListWidget := {}
  rb_dinput : QRadioButton := {}
  rb_xinput : QRadioButton := {}
  cb_bindings : QComboBox := {}
  cb_device : device_box := {}
  txt_new_binding_name : QLineEdit := { objectName := "txt_new_binding_name" }
  line_edits : List QLineEdit := []
  message_boxes : List (String × String) := []
  deriving DecidableEq, Repr

/-- What the dialog code runs on: the dialog widgets and the global objects
it reads and writes. -/
structure plugin_state where
  ui : Ui.io_config_dialog := {}
  config : io_config := {}
  hook_instance : gamepad.hook := {}
  deriving DecidableEq, Repr

/-- What libgamepad supplies besides the hook state: the enumerator values
and `hook::make_native_binding`, which hands out a binding and may change
the hook. -/
structure libgamepad where
  codes : gamepad.codes
  make_native_binding : gamepad.hook → gamepad.cfg.binding × gamepad.hook

/-- `setEnabled(state)` with an `int` argument: enabled iff non-zero. -/
def to_bool (state : Int) : Bool := state != 0

/-- `io_settings_dialog::CbRemoteStateChanged`. -/
def CbRemoteStateChanged (state : Int) (ui : Ui.io_config_dialog) : Ui.io_config_dialog :=
  let ui := { ui with cb_log := { ui.cb_log with enabled := to_bool state } }
  let ui := { ui with box_port := { ui.box_port with enabled := to_bool state } }
  let ui := { ui with box_connections := { ui.box_connections with enabled := to_bool state } }
  let ui := { ui with btn_refresh := { ui.btn_refresh with enabled := to_bool state } }
  let ui := { ui with box_refresh_rate := { ui.box_refresh_rate with enabled := to_bool state } }
  { ui with cb_regex := { ui.cb_regex with enabled := to_bool state } }

/-- `io_settings_dialog::CbInputControlStateChanged`. -/
def CbInputControlStateChanged (state : Int) (ui : Ui.io_config_dialog) : Ui.io_config_dialog :=
  let ui := { ui with cb_list_mode := { ui.cb_list_mode with enabled := to_bool state } }
  let ui := { ui with cb_text := { ui.cb_text with enabled := to_bool state } }
  let ui := { ui with btn_add := { ui.btn_add with enabled := to_bool state } }
  let ui := { ui with btn_remove := { ui.btn_remove with enabled := to_bool state } }
  let ui := { ui with list_filters := { ui.list_filters with enabled := to_bool state } }
  let ui := { ui with btn_refresh_cb := { ui.btn_refresh_cb with enabled := to_bool state } }
  { ui with cb_regex := { ui.cb_regex with enabled := to_bool state } }

/-- `io_settings_dialog::RefreshWindowList`; `windows` is what
`GetWindowList` reports. -/
def RefreshWindowList (windows : List String) (ui : Ui.io_config_dialog) : Ui.io_config_dialog :=
  { ui with cb_text := { ui.cb_text with items := windows } }

/-- The loop of `AddFilter` over `i = 0 .. count - 1`: `some true` when some
`itemAt(0, i)` has the current text, `some false` when the loop runs out,
`none` when `itemAt(0, i)` is null and is dereferenced. -/
def AddFilter.scan (l : QListWidget) (text : String) : List Nat → Option Bool
  | [] => some false
  | i :: rest =>
    match l.itemAt 0 (i : Int) with
    | none => none
    | some it => if it.text == text then some true else AddFilter.scan l text rest

/-- `io_settings_dialog::AddFilter`; `none` when a null item is
dereferenced. -/
def AddFilter (s : plugin_state) : Option plugin_state :=
  match AddFilter.scan s.ui.list_filters s.ui.cb_text.currentText
      (List.range s.ui.list_filters.count) with
  | none => none
  | some true => some s /- Filter already exists -/
  | some false =>
    some { s with
      ui := { s.ui with list_filters := s.ui.list_filters.addItem s.ui.cb_text.currentText },
      config := { s.config with
        io_window_filters := s.config.io_window_filters.add_filter s.ui.cb_text.currentText } }

/-- `io_settings_dialog::RemoveFilter`. -/
def RemoveFilter (s : plugin_state) : plugin_state :=
  if !s.ui.list_filters.selectedItems.isEmpty then
    let selected_count := s.ui.list_filters.selectedItems.length
    let filters := (List.range selected_count).foldl
      (fun w i => w.remove_filter i) s.config.io_window_filters
    { s with
      config := { s.config with io_window_filters := filters },
      ui := { s.ui with list_filters := s.ui.list_filters.deleteSelected } }
  else s

/-- `io_settings_dialog::FormAccepted`; `write_to_config` stores the filters
with the host and changes none of the variables here. -/
def FormAccepted (s : plugin_state) : plugin_state :=
  let c := s.config
  let c := { c with uiohook := s.ui.cb_iohook.checked }
  let c := { c with gamepad := s.ui.cb_gamepad_hook.checked }
  let c := { c with overlay := s.ui.cb_enable_overlay.checked }
  let c := { c with remote := s.ui.cb_enable_remote.checked }
  let c := { c with log_flag := s.ui.cb_log.checked }
  let c := { c with port := s.ui.box_port.value }
  let c := { c with control := s.ui.cb_enable_control.checked }
  let c := { c with filter_mode := s.ui.cb_list_mode.currentIndex }
  let c := { c with io_window_filters := c.io_window_filters.set_regex s.ui.cb_regex.checked }
  let c := { c with
    io_window_filters := c.io_window_filters.set_whitelist (s.ui.cb_list_mode.currentIndex == 0) }
  let c := { c with use_dinput := s.ui.rb_dinput.checked }
  { s with config := c }

/-- `io_settings_dialog::load_bindings`. -/
def load_bindings (s : plugin_state) : plugin_state :=
  let box := s.hook_instance.get_bindings.foldl
    (fun b binding => b.addItem binding.get_name) s.ui.cb_bindings.clear
  { s with ui := { s.ui with cb_bindings := box } }

/-- The table `button_map`: text box name and button code. -/
def button_map (c : gamepad.codes) : List (String × Nat) :=
  [("txt_a", c.of_button .A), ("txt_b", c.of_button .B), ("txt_x", c.of_button .X),
   ("txt_y", c.of_button .Y), ("txt_rb", c.of_button .RB), ("txt_lb", c.of_button .LB),
   ("txt_guide", c.of_button .GUIDE), ("txt_analog_left", c.of_button .L_THUMB),
   ("txt_analog_right", c.of_button .R_THUMB), ("txt_back", c.of_button .BACK),
   ("txt_start", c.of_button .START), ("txt_dpad_up", c.of_button .DPAD_UP),
   ("txt_dpad_down", c.of_button .DPAD_DOWN), ("txt_dpad_left", c.of_button .DPAD_LEFT),
   ("txt_dpad_right", c.of_button .DPAD_RIGHT)]

/-- The table `axis_map`: text box name and axis code. -/
def axis_map (c : gamepad.codes) : List (String × Nat) :=
  [("txt_rx", c.of_axis .LEFT_STICK_X), ("txt_ry", c.of_axis .LEFT_STICK_Y),
   ("txt_lx", c.of_axis .RIGHT_STICK_X), ("txt_ly", c.of_axis .RIGHT_STICK_Y),
   ("txt_lt", c.of_axis .LEFT_TRIGGER), ("txt_rt", c.of_axis .RIGHT_TRIGGER)]

/-- `find_by_code`: the native code of the first mapping whose second
component is the needle's code, `-1` when there is none. -/
def find_by_code (needle : String × Nat) : gamepad.cfg.mappings → Int
  | [] => -1
  | p :: rest => if p.2 == needle.2 then p.1 else find_by_code needle rest

/-- `findChild<QLineEdit *>(name)` followed by `setText(text)` on the child
found: the first line edit with that object name gets the text. -/
def setText_of_child (name text : String) : List QLineEdit → List QLineEdit
  | [] => []
  | e :: rest =>
    if e.objectName == name then { e with text := text } :: rest
    else e :: setText_of_child name text rest

/-- One of the two loops of `load_binding`: for each pair of the table, the
text box of that name (when the dialog has one) shows the native code mapped
to the pair's code (when the mappings have one). -/
def load_binding.transfer (mappings : gamepad.cfg.mappings) :
    List (String × Nat) → List QLineEdit → List QLineEdit
  | [], edits => edits
  | pair :: rest, edits =>
    let native_value := find_by_code pair mappings
    let edits :=
      if native_value > -1 then setText_of_child pair.1 (toString native_value) edits
      else edits
    load_binding.transfer mappings rest edits

/-- `io_settings_dialog::load_binding`. -/
def load_binding (c : gamepad.codes) (binding : gamepad.cfg.binding)
    (ui : Ui.io_config_dialog) : Ui.io_config_dialog :=
  let edits := load_binding.transfer binding.get_button_mappings (button_map c) ui.line_edits
  let edits := load_binding.transfer binding.get_axis_mappings (axis_map c) edits
  let ui := { ui with line_edits := edits }
  /- Select it if the binding exists -/
  let idx := ui.cb_bindings.findText binding.get_name
  if idx > -1 then { ui with cb_bindings := ui.cb_bindings.setCurrentIndex idx } else ui

/-- `io_settings_dialog::on_btn_add_bind_clicked`. -/
def on_btn_add_bind_clicked (lib : libgamepad) (s : plugin_state) : plugin_state :=
  if s.ui.txt_new_binding_name.text.isEmpty then s
  else if s.ui.cb_bindings.findText s.ui.txt_new_binding_name.text != -1 then
    { s with ui := { s.ui with
        message_boxes := s.ui.message_boxes ++ [("Error", "Binding name must be unique")] } }
  else
    let s := { s with ui := { s.ui with
      cb_bindings := s.ui.cb_bindings.addItem s.ui.txt_new_binding_name.text } }
    match s.hook_instance.get_device_by_id s.ui.cb_device.currentData with
    | none => s
    | some dev =>
      match s.hook_instance.device_at dev with
      | none => s
      | some d =>
        let has_custom_binding :=
          (s.hook_instance.get_binding_by_name d.get_binding.get_name).isSome
        if has_custom_binding then
          { s with ui := load_binding lib.codes d.get_binding s.ui }
        else
          match s.hook_instance.get_binding_by_name s.ui.cb_bindings.currentText with
          | some binding => { s with hook_instance := s.hook_instance.set_binding dev binding }
          | none =>
            /- No binding exists with this name so we create it -/
            let made := lib.make_native_binding s.hook_instance
            { s with hook_instance := made.2.set_binding dev made.1 }

/-- `io_settings_dialog::on_cb_device_currentIndexChanged`. -/
def on_cb_device_currentIndexChanged (lib : libgamepad) (s : plugin_state) : plugin_state :=
  match s.hook_instance.get_device_by_id s.ui.cb_device.currentData with
  | none => s
  | some dev =>
    match s.hook_instance.device_at dev with
    | none => s
    | some d => { s with ui := load_binding lib.codes d.get_binding s.ui }

/-- `io_settings_dialog::on_cb_bindings_currentIndexChanged`. -/
def on_cb_bindings_currentIndexChanged (s : plugin_state) : plugin_state :=
  match s.hook_instance.get_device_by_id s.ui.cb_device.currentData,
      s.hook_instance.get_binding_by_name s.ui.cb_bindings.currentText with
  | some dev, some binding => { s with hook_instance := s.hook_instance.set_binding dev binding }
  | _, _ => s

/-- `findChild<QLineEdit *>(name)`: the first line edit with that object
name, `none` standing for the null pointer. -/
def findChild (name : String) (edits : List QLineEdit) : Option QLineEdit :=
  edits.find? (fun e => e.objectName == name)

/-- The value of a non-empty run of decimal digits, `none` for any other
text. -/
def QString.digits_value (ds : List Char) : Option Nat :=
  if ds ≠ [] ∧ ds.all Char.isDigit = true then
    some (ds.foldl (fun n d => 10 * n + (d.toNat - '0'.toNat)) 0)
  else none

/-- `QString::toInt(&ok)` in base 10: white space around the number is
skipped, a sign may precede the digits, and the value has to fit an `int`;
`none` is `ok == false`. -/
def QString.toInt (t : String) : Option Int :=
  let cs := ((t.toList.dropWhile Char.isWhitespace).reverse.dropWhile Char.isWhitespace).reverse
  let value : Option Int :=
    match cs with
    | '-' :: ds => (QString.digits_value ds).map (fun n => -(n : Int))
    | '+' :: ds => (QString.digits_value ds).map (fun n => (n : Int))
    | ds => (QString.digits_value ds).map (fun n => (n : Int))
  value.bind (fun i => if -2147483648 ≤ i ∧ i ≤ 2147483647 then some i else none)

/-- `m[k] = v` on an ordered map (`std::map`): the entry of key `k` gets the
value `v`; a key the map does not have yet is entered at its place in key
order. -/
def gamepad.cfg.mappings.assign : gamepad.cfg.mappings → Int → Nat → gamepad.cfg.mappings
  | [], k, v => [(k, v)]
  | p :: rest, k, v =>
    if p.1 = k then (k, v) :: rest
    else if k < p.1 then (k, v) :: p :: rest
    else p :: gamepad.cfg.mappings.assign rest k v

/-- The container type `gamepad::cfg::mappings`, which libgamepad declares
and the handlers use through `m[k] = v` and iteration: a parameter. `assign`
is `m[k] = v` on the entries in iteration order, `valid` tells which lists
are states of the container, and the laws say no more than that it is a
map: after `m[k] = v` the key `k` holds `v` and every other key holds what
it held. Where an entry goes in the iteration order is left open. -/
structure mappings_container where
  assign : gamepad.cfg.mappings → Int → Nat → gamepad.cfg.mappings
  valid : gamepad.cfg.mappings → Prop
  valid_nil : valid []
  valid_assign : ∀ m k v, valid m → valid (assign m k v)
  mem_assign : ∀ m k v p, valid m → (p ∈ assign m k v ↔ p = (k, v) ∨ (p ∈ m ∧ p.1 ≠ k))

/-- The ordered map as a container: its states are the lists with strictly
ascending keys. -/
def std_map : mappings_container :=
  have laws : ∀ (m : gamepad.cfg.mappings) (k : Int) (v : Nat),
      m.Pairwise (fun p q => p.1 < q.1) →
      (gamepad.cfg.mappings.assign m k v).Pairwise (fun p q => p.1 < q.1) ∧
      ∀ p, p ∈ gamepad.cfg.mappings.assign m k v ↔ p = (k, v) ∨ (p ∈ m ∧ p.1 ≠ k) := by
    intro m k v
    induction m with
    | nil =>
      intro _
      simp [gamepad.cfg.mappings.assign]
    | cons q rest ih =>
      intro hsorted
      have hq : ∀ x ∈ rest, q.1 < x.1 := (List.pairwise_cons.mp hsorted).1
      have hrest := (List.pairwise_cons.mp hsorted).2
      obtain ⟨ih1, ih2⟩ := ih hrest
      unfold gamepad.cfg.mappings.assign
      by_cases h1 : q.1 = k
      · rw [if_pos h1]
        refine ⟨List.pairwise_cons.mpr ⟨fun x hx => h1 ▸ hq x hx, hrest⟩, fun p => ?_⟩
        constructor
        · intro hp
          rcases List.mem_cons.mp hp with hp | hp
          · exact Or.inl hp
          · exact Or.inr ⟨List.mem_cons_of_mem _ hp, by have := hq p hp; omega⟩
        · rintro (hp | ⟨hp, hne⟩)
          · exact hp ▸ List.mem_cons_self _ _
          · rcases List.mem_cons.mp hp with hp | hp
            · exact absurd (hp ▸ h1) hne
            · exact List.mem_cons_of_mem _ hp
      · rw [if_neg h1]
        by_cases h2 : k < q.1
        · rw [if_pos h2]
          refine ⟨List.pairwise_cons.mpr ⟨fun x hx => ?_, hsorted⟩, fun p => ?_⟩
          · rcases List.mem_cons.mp hx with hx | hx
            · exact hx ▸ h2
            · have := hq x hx
              show k < x.1
              omega
          · constructor
            · intro hp
              rcases List.mem_cons.mp hp with hp | hp
              · exact Or.inl hp
              · refine Or.inr ⟨hp, ?_⟩
                rcases List.mem_cons.mp hp with hp | hp
                · rw [hp]; omega
                · have := hq p hp
                  omega
            · rintro (hp | ⟨hp, _⟩)
              · exact hp ▸ List.mem_cons_self _ _
              · exact List.mem_cons_of_mem _ hp
        · rw [if_neg h2]
          refine ⟨List.pairwise_cons.mpr ⟨fun x hx => ?_, ih1⟩, fun p => ?_⟩
          · rcases (ih2 x).mp hx with hx | ⟨hx, _⟩
            · rw [hx]
              show q.1 < k
              omega
            · exact hq x hx
          · constructor
            · intro hp
              rcases List.mem_cons.mp hp with hp | hp
              · exact Or.inr ⟨hp ▸ List.mem_cons_self _ _, by rw [hp]; exact h1⟩
              · rcases (ih2 p).mp hp with hp | ⟨hp, hne⟩
                · exact Or.inl hp
                · exact Or.inr ⟨List.mem_cons_of_mem _ hp, hne⟩
            · rintro (hp | ⟨hp, hne⟩)
              · exact List.mem_cons_of_mem _ ((ih2 p).mpr (Or.inl hp))
              · rcases List.mem_cons.mp hp with hp | hp
                · exact hp ▸ List.mem_cons_self _ _
                · exact List.mem_cons_of_mem _ ((ih2 p).mpr (Or.inr ⟨hp, hne⟩))
  { assign := gamepad.cfg.mappings.assign,
    valid := fun m => m.Pairwise (fun p q => p.1 < q.1),
    valid_nil := List.Pairwise.nil,
    valid_assign := fun m k v h => (laws m k v h).1,
    mem_assign := fun m k v p h => (laws m k v h).2 p }

/-- One of the two loops of `on_box_binding_accepted`: for each pair of the
table whose text box exists and holds a number `i`, the entry `i` of one of
the binding's mapping tables becomes the pair's code. `to_key` converts the
`int` to the key type of the container, which libgamepad declares; `write`
is the assignment into the table the loop is about. The outer `none` is the
dereference of a null `binding`. -/
def on_box_binding_accepted.transfer (to_key : Int → Int) (edits : List QLineEdit)
    (write : gamepad.cfg.binding → Int → Nat → gamepad.cfg.binding) :
    List (String × Nat) → Option gamepad.cfg.binding → Option (Option gamepad.cfg.binding)
  | [], binding => some binding
  | pair :: rest, binding =>
    match findChild pair.1 edits with
    | none => on_box_binding_accepted.transfer to_key edits write rest binding
    | some text_box =>
      match QString.toInt text_box.text with
      | none => on_box_binding_accepted.transfer to_key edits write rest binding
      | some i =>
        match binding with
        | none => none
        | some b =>
          on_box_binding_accepted.transfer to_key edits write rest (some (write b (to_key i) pair.2))

/-- The assignment `binding->get_button_mappings()[k] = v`. -/
def gamepad.cfg.binding.set_button (container : mappings_container) (b : gamepad.cfg.binding)
    (k : Int) (v : Nat) : gamepad.cfg.binding :=
  { b with get_button_mappings := container.assign b.get_button_mappings k v }

/-- The assignment `binding->get_axis_mappings()[k] = v`. -/
def gamepad.cfg.binding.set_axis (container : mappings_container) (b : gamepad.cfg.binding)
    (k : Int) (v : Nat) : gamepad.cfg.binding :=
  { b with get_axis_mappings := container.assign b.get_axis_mappings k v }

/-- In the hook's list of bindings, the first binding of that name takes a
new value. -/
def gamepad.hook.store_binding (name : String) (b : gamepad.cfg.binding) :
    List gamepad.cfg.binding → List gamepad.cfg.binding
  | [] => []
  | x :: rest =>
    if x.get_name == name then b :: rest else x :: gamepad.hook.store_binding name b rest

/-- The binding object `get_binding_by_name(name)` points to has been
written to: it had the value `before` and has the value `after`. The hook's
list holds the object, and so does every device it was assigned to, through
the shared pointer; with bindings as values, those are the devices whose
binding is `before`. -/
def gamepad.hook.write_binding (h : gamepad.hook) (name : String)
    (before after : gamepad.cfg.binding) : gamepad.hook :=
  { get_bindings := gamepad.hook.store_binding name after h.get_bindings,
    get_devices := h.get_devices.map (fun d =>
      if d.get_binding = before then { d with get_binding := after } else d) }

/-- `io_settings_dialog::on_box_binding_accepted`; `none` when the null
pointer `get_binding_by_name` returned is dereferenced. -/
def on_box_binding_accepted (container : mappings_container) (to_key : Int → Int)
    (c : gamepad.codes) (s : plugin_state) : Option plugin_state :=
  let name := s.ui.cb_bindings.currentText
  let binding := s.hook_instance.get_binding_by_name name
  /- Read bindings from UI and set them to the current device bindings -/
  match on_box_binding_accepted.transfer to_key s.ui.line_edits
      (gamepad.cfg.binding.set_button container) (button_map c) binding with
  | none => none
  | some after_buttons =>
    match on_box_binding_accepted.transfer to_key s.ui.line_edits
        (gamepad.cfg.binding.set_axis container) (axis_map c) after_buttons with
    | none => none
    | some after_axes =>
      match binding, after_axes with
      | some before, some after =>
        some { s with hook_instance := s.hook_instance.write_binding name before after }
      | _, _ => some s

/-- `on_box_binding_accepted` followed by `load_binding` on the binding it
wrote to: the dialog afterwards, `none` when the first step does not return
or there is no such binding. -/
def save_then_load (container : mappings_container) (to_key : Int → Int) (c : gamepad.codes)
    (s : plugin_state) : Option Ui.io_config_dialog :=
  (on_box_binding_accepted container to_key c s).bind (fun r =>
    (r.hook_instance.get_binding_by_name s.ui.cb_bindings.currentText).map
      (fun b => load_binding c b r.ui))

/-- The number the text box of that name shows: `none` when the dialog has
no such box or its text is not a number. -/
def shown_number (name : String) (edits : List QLineEdit) : Option Int :=
  (findChild name edits).bind (fun e => QString.toInt e.text)

/-- The constructor `io_settings_dialog::io_settings_dialog`, from the
statement after the `connect` calls on. `form` is the dialog as `setupUi`
builds it from the form file, `windows` is what `GetWindowList` reports;
`config` and `hook_instance` are the globals it reads. -/
def io_settings_dialog (form : Ui.io_config_dialog) (windows : List String)
    (config : io_config) (hook_instance : gamepad.hook) : plugin_state :=
  /- Load values -/
  let ui := { form with cb_iohook := { form.cb_iohook with checked := config.uiohook } }
  let ui := { ui with cb_gamepad_hook := { ui.cb_gamepad_hook with checked := config.gamepad } }
  let ui := { ui with cb_enable_overlay := { ui.cb_enable_overlay with checked := config.overlay } }
  let ui := { ui with cb_enable_control := { ui.cb_enable_control with checked := config.control } }
  let ui := { ui with cb_enable_remote := { ui.cb_enable_remote with checked := config.remote } }
  let ui := { ui with cb_log := { ui.cb_log with checked := config.log_flag } }
  let ui := { ui with box_port := ui.box_port.setValue config.port }
  let ui := { ui with cb_regex := { ui.cb_regex with checked := config.regex } }
  let s := load_bindings { ui := ui, config := config, hook_instance := hook_instance }
  let ui := CbRemoteStateChanged (if config.remote then 1 else 0) s.ui
  let ui := CbInputControlStateChanged (if config.control then 1 else 0) ui
  /- Add current open windows to filter list -/
  let ui := if config.control then RefreshWindowList windows ui else ui
  let ui := { ui with
    list_filters := config.io_window_filters.filters.foldl QListWidget.addItem ui.list_filters }
  { s with ui := ui }

/-! ## The overlay source -/

/-- The setting names `S_...` of `settings.h` used by the source. -/
inductive setting_key where
  | S_INPUT_SOURCE | S_LAYOUT_FILE | S_OVERLAY_FILE | S_CONTROLLER_ID
  | S_MOUSE_SENS | S_MONITOR_USE_CENTER | S_MONITOR_H_CENTER | S_MONITOR_V_CENTER
  | S_MOUSE_DEAD_ZONE | S_RELOAD_CONNECTIONS | S_RELOAD_PAD_DEVICES
  | S_CONTROLLER_L_DEAD_ZONE | S_CONTROLLER_R_DEAD_ZONE
  deriving DecidableEq, Repr

/-- A host settings object `obs_data_t`, seen through the three getters the
source uses. -/
structure obs_data_t where
  get_int : setting_key → Int
  get_string : setting_key → String
  get_bool : setting_key → Bool

/-- The struct `m_settings` of a source. -/
structure overlay_settings where
  selected_source : Int := 0
  layout_file : String := ""
  image_file : String := ""
  gamepad_id : String := ""
  gamepad : Option gamepad.device := none
  gamepad_check_timer : ℚ := 0
  mouse_sens : Int := 0
  use_center : Bool := false
  mouse_deadzone : Int := 0
  monitor_h : Int := 0
  monitor_w : Int := 0
  layout_flags : Nat := 0
  cx : Nat := 0
  cy : Nat := 0
  deriving DecidableEq, Repr

/-- The conversions from the `long long` of `obs_data_get_int` to the types
of the integer fields of `m_settings`; the struct is declared outside the
given sources, so they are a parameter. -/
structure field_types where
  selected_source : Int → Int
  mouse_sens : Int → Int
  mouse_deadzone : Int → Int
  monitor_h : Int → Int
  monitor_w : Int → Int

/-- Field types wide enough to hold every stored value unchanged. -/
def field_types.wide : field_types :=
  { selected_source := id, mouse_sens := id, mouse_deadzone := id, monitor_h := id,
    monitor_w := id }

/-- The object behind `get_texture()`: its `texture` member is a handle or
null. -/
structure gs_image_file_t where
  texture : Option Nat := none
  deriving DecidableEq, Repr

/-- The overlay object `m_overlay` as the source sees it. -/
structure overlay where
  get_texture : Option gs_image_file_t := none
  is_loaded : Bool := false
  deriving DecidableEq, Repr

/-- A call into the host graphics layer or the overlay made by `render`. -/
inductive render_call where
  | gs_effect_set_texture (param : String) (texture : Nat)
  | gs_draw_sprite (texture : Nat) (flip : Nat) (cx cy : Nat)
  | overlay_draw
  deriving DecidableEq, Repr

/-- An `input_source`: its settings, its overlay, its size members, and a
record of the settings each invocation of `m_overlay->load()` found. -/
structure input_source where
  m_settings : overlay_settings := {}
  m_overlay : overlay := {}
  cx : Nat := 0
  cy : Nat := 0
  load_calls : List overlay_settings := []
  deriving DecidableEq, Repr

/-- The effect of `overlay::load`, defined outside the given sources: the
overlay holds a pointer to the settings, so it may change both. -/
abbrev overlay_load := overlay_settings → overlay → overlay_settings × overlay

/-- The call `m_overlay->load()`: record the settings load finds, then apply
its effect. -/
def input_source.call_load (load : overlay_load) (s : input_source) : input_source :=
  let r := load s.m_settings s.m_overlay
  { s with m_settings := r.1, m_overlay := r.2, load_calls := s.load_calls ++ [s.m_settings] }

/-- `input_source::update`. -/
def input_source.update (ty : field_types) (load : overlay_load) (hook : gamepad.hook)
    (s : input_source) (settings : obs_data_t) : input_source :=
  let s := { s with m_settings := { s.m_settings with
    selected_source := ty.selected_source (settings.get_int .S_INPUT_SOURCE) } }
  let config := settings.get_string .S_LAYOUT_FILE
  let s := { s with m_settings := { s.m_settings with
    image_file := settings.get_string .S_OVERLAY_FILE } }
  let s :=
    if s.m_settings.layout_file != config then /- Only reload config file if path changed -/
      input_source.call_load load { s with m_settings := { s.m_settings with layout_file := config } }
    else s
  let s := { s with m_settings := { s.m_settings with
    gamepad_id := settings.get_string .S_CONTROLLER_ID } }
  let s := { s with m_settings := { s.m_settings with
    gamepad := (hook.get_device_by_id s.m_settings.gamepad_id).bind hook.device_at } }
  let s := { s with m_settings := { s.m_settings with
    mouse_sens := ty.mouse_sens (settings.get_int .S_MOUSE_SENS) } }
  let s := { s with m_settings := { s.m_settings with
    use_center := settings.get_bool .S_MONITOR_USE_CENTER } }
  if s.m_settings.use_center then
    let s := { s with m_settings := { s.m_settings with
      monitor_h := ty.monitor_h (settings.get_int .S_MONITOR_H_CENTER) } }
    let s := { s with m_settings := { s.m_settings with
      monitor_w := ty.monitor_w (settings.get_int .S_MONITOR_V_CENTER) } }
    { s with m_settings := { s.m_settings with
      mouse_deadzone := ty.mouse_deadzone (settings.get_int .S_MOUSE_DEAD_ZONE) } }
  else s

/-- `input_source::render`: the source it leaves behind and the calls it
makes, in order. -/
def input_source.render (s : input_source) : input_source × List render_call :=
  match s.m_overlay.get_texture with
  | none => (s, [])
  | some image =>
    match image.texture with
    | none => (s, [])
    | some texture =>
      if s.m_settings.layout_file.isEmpty || !s.m_overlay.is_loaded then
        (s, [.gs_effect_set_texture "image" texture, .gs_draw_sprite texture 0 s.cx s.cy])
      else
        (s, [.overlay_draw])

/-- The frame condition on `overlay::load` under which `update` can promise
anything about the fields written before the call: `load` leaves alone the
fields of the settings that `update` fills from host storage. -/
def overlay_load.keeps_stored_fields (load : overlay_load) : Prop :=
  ∀ st o,
    (load st o).1.selected_source = st.selected_source ∧
    (load st o).1.layout_file = st.layout_file ∧
    (load st o).1.image_file = st.image_file ∧
    (load st o).1.mouse_deadzone = st.mouse_deadzone ∧
    (load st o).1.monitor_h = st.monitor_h ∧
    (load st o).1.monitor_w = st.monitor_w

/-- The one thing `update` needs of `overlay::load` for the layout path to
be the stored one after a reload: `load` does not write `layout_file`. -/
def overlay_load.keeps_layout_file (load : overlay_load) : Prop :=
  ∀ st o, (load st o).1.layout_file = st.layout_file

/-- A `load` that marks the overlay loaded and takes the layout flags from
the length of the layout path; it stands in for the real parser where a
concrete one is needed. -/
def overlay_load.sample : overlay_load :=
  fun st o => ({ st with layout_flags := st.layout_file.length }, { o with is_loaded := true })

/-! ### Property panel -/

/-- A property of the panel: its name, whether it is shown, and the entries
of a list property. -/
structure obs_property_t where
  name : setting_key
  visible : Bool := true
  items : List (String × String) := []
  deriving DecidableEq, Repr

/-- A property set `obs_properties_t`, in the order the properties were
added. -/
abbrev obs_properties_t := List obs_property_t

/-- The `obs_properties_add_...` family: a property of that name is added,
visible; the host refuses a name the set already has. -/
def obs_properties_add (props : obs_properties_t) (name : setting_key) : obs_properties_t :=
  if props.any (fun p => p.name == name) then props else props ++ [{ name := name }]

/-- `obs_property_set_visible(GET_PROPS(name), visible)`: the host ignores
the call when the set has no property of that name. -/
def obs_property_set_visible (props : obs_properties_t) (name : setting_key)
    (visible : Bool) : obs_properties_t :=
  props.map (fun p => if p.name == name then { p with visible := visible } else p)

/-- Replace the entries of the list property of that name. -/
def obs_property_list_set (props : obs_properties_t) (name : setting_key)
    (items : List (String × String)) : obs_properties_t :=
  props.map (fun p => if p.name == name then { p with items := items } else p)

/-- `obs_property_visible(GET_PROPS(name))`, `none` when the set has no such
property. -/
def obs_property_visible (props : obs_properties_t) (name : setting_key) : Option Bool :=
  (props.find? (fun p => p.name == name)).map (fun p => p.visible)

/-- The layout flag constants `OF_...`, declared outside the given sources. -/
structure overlay_flags where
  OF_MOUSE : Nat
  OF_GAMEPAD : Nat
  OF_LEFT_STICK : Nat
  OF_RIGHT_STICK : Nat

/-- The value `flags & OF_X` as a `bool` argument: true iff some bit of the
constant is set in `flags`. -/
def has_flag (flags constant : Nat) : Bool := (flags &&& constant) != 0

/-- `reload_pads` on the property of the given name: the list is cleared and
gets one entry (name, id) per device. -/
def reload_pads (hook : gamepad.hook) (props : obs_properties_t) (property : setting_key) :
    obs_properties_t :=
  obs_property_list_set props property (hook.get_devices.map (fun pad => (pad.get_name, pad.get_id)))

/-- `get_properties_for_overlay`. `remote` is `CGET_BOOL(S_REMOTE)`,
`network_flag` is `network::network_flag`, `clients` are the entries the
server's `get_clients` puts into a list property. -/
def get_properties_for_overlay (of : overlay_flags) (remote network_flag : Bool)
    (clients : List (String × String)) (hook : gamepad.hook) (src : input_source) :
    obs_properties_t :=
  let props : obs_properties_t := []
  let flags := src.m_settings.layout_flags
  /- If enabled add dropdown to select input source -/
  let props :=
    if remote then
      let props := obs_properties_add props .S_INPUT_SOURCE
      let props := obs_properties_add props .S_RELOAD_CONNECTIONS
      if network_flag then obs_property_list_set props .S_INPUT_SOURCE clients else props
    else props
  /- Config and texture file path -/
  let props := obs_properties_add props .S_OVERLAY_FILE
  let props := obs_properties_add props .S_LAYOUT_FILE
  /- Mouse stuff -/
  let props := obs_properties_add props .S_MOUSE_SENS
  let props := obs_properties_add props .S_MONITOR_USE_CENTER
  let props := obs_properties_add props .S_MONITOR_H_CENTER
  let props := obs_properties_add props .S_MONITOR_V_CENTER
  let props := obs_properties_add props .S_MOUSE_DEAD_ZONE
  /- Gamepad stuff -/
  let props := obs_properties_add props .S_CONTROLLER_ID
  let props := obs_property_set_visible props .S_CONTROLLER_ID false
  let props := obs_properties_add props .S_RELOAD_PAD_DEVICES
  let props := obs_property_set_visible props .S_RELOAD_PAD_DEVICES false
  let props := obs_property_set_visible props .S_CONTROLLER_L_DEAD_ZONE
    (has_flag flags of.OF_LEFT_STICK)
  let props := obs_property_set_visible props .S_CONTROLLER_R_DEAD_ZONE
    (has_flag flags of.OF_RIGHT_STICK)
  let props := obs_property_set_visible props .S_CONTROLLER_ID
    (has_flag flags of.OF_GAMEPAD ||
      (has_flag flags of.OF_LEFT_STICK || has_flag flags of.OF_RIGHT_STICK))
  let props := obs_property_set_visible props .S_MOUSE_SENS (has_flag flags of.OF_MOUSE)
  let props := obs_property_set_visible props .S_MONITOR_USE_CENTER (has_flag flags of.OF_MOUSE)
  let props := obs_property_set_visible props .S_MOUSE_DEAD_ZONE (has_flag flags of.OF_MOUSE)
  let props := obs_property_set_visible props .S_RELOAD_PAD_DEVICES (has_flag flags of.OF_GAMEPAD)
  reload_pads hook props .S_CONTROLLER_ID

/-! ### Video tick -/

/-- The effect of `overlay::refresh_data`, defined outside the given
sources, on the settings the overlay points to and on the overlay. -/
abbrev overlay_refresh_data := overlay_settings → overlay → overlay_settings × overlay

/-- `input_source::tick`, with `seconds` an exact number: the source it
leaves behind and the ids it passed to `get_device_by_id`, in order. -/
def input_source.tick (of : overlay_flags) (refresh_data : overlay_refresh_data)
    (hook : gamepad.hook) (s : input_source) (seconds : ℚ) : input_source × List String :=
  let s :=
    if s.m_overlay.is_loaded then
      { s with m_settings := (refresh_data s.m_settings s.m_overlay).1,
               m_overlay := (refresh_data s.m_settings s.m_overlay).2 }
    else s
  if has_flag s.m_settings.layout_flags of.OF_GAMEPAD && s.m_settings.gamepad.isNone then
    let s := { s with m_settings := { s.m_settings with
      gamepad_check_timer := s.m_settings.gamepad_check_timer + seconds } }
    if s.m_settings.gamepad_check_timer ≥ 1 then
      let s := { s with m_settings := { s.m_settings with gamepad_check_timer := 0 } }
      ({ s with m_settings := { s.m_settings with
          gamepad := (hook.get_device_by_id s.m_settings.gamepad_id).bind hook.device_at } },
       [s.m_settings.gamepad_id])
    else (s, [])
  else (s, [])

/-- The frame condition on `overlay::refresh_data` under which `tick` can be
described by the source as it was on entry: `refresh_data` leaves alone the
fields of the settings that `tick` reads. -/
def overlay_refresh_data.keeps_gamepad_fields (refresh_data : overlay_refresh_data) : Prop :=
  ∀ st o,
    (refresh_data st o).1.layout_flags = st.layout_flags ∧
    (refresh_data st o).1.gamepad = st.gamepad ∧
    (refresh_data st o).1.gamepad_id = st.gamepad_id ∧
    (refresh_data st o).1.gamepad_check_timer = st.gamepad_check_timer

/-- A `refresh_data` that touches the overlay only; it stands in for the
real one where a concrete one is needed. -/
def overlay_refresh_data.sample : overlay_refresh_data := fun st o => (st, o)

/-! ## Lock discipline

The order in which a handler takes and releases the mutexes and touches the
state they guard, read off its body statement by statement. -/

/-- The mutexes the two files use. -/
inductive mutex_id where
  | network        /- network::mutex -/
  | gamepad_hook   /- *libgamepad::hook_instance->get_mutex() -/
  | last_input     /- libgamepad::last_input_mutex -/
  deriving DecidableEq, Repr

/-- What a handler does that matters to the locks. -/
inductive sync_event where
  | lock (m : mutex_id)
  | unlock (m : mutex_id)
  /-- A read or write of the device list, the bindings or a mapping table. -/
  | hook_access
  /-- A read of `network::server_instance` or a call on it. -/
  | server_access
  deriving DecidableEq, Repr

/-- One event against the set of mutexes held: `none` when the event breaks
the discipline (guarded state touched without its mutex, a mutex locked
twice or released while not held). -/
def locks.step (held : List mutex_id) : sync_event → Option (List mutex_id)
  | .lock m => if m ∈ held then none else some (m :: held)
  | .unlock m => if m ∈ held then some (held.erase m) else none
  | .hook_access => if mutex_id.gamepad_hook ∈ held then some held else none
  | .server_access => if mutex_id.network ∈ held then some held else none

/-- A whole trace against the set of mutexes held. -/
def locks.run (held : List mutex_id) : List sync_event → Option (List mutex_id)
  | [] => some held
  | e :: rest => (locks.step held e).bind (fun h => locks.run h rest)

/-- A handler entered with no mutex held keeps the discipline: every guarded
access happens under its mutex and no mutex is held at the end. -/
def well_locked (trace : List sync_event) : Bool := locks.run [] trace == some []

/-- `RefreshUi`: the guard on `network::mutex` spans the body. The arguments
are `network::network_flag`, whether `server_instance` is set, the result of
`clients_changed()`, `libgamepad::state`, and whether the device count
differs from the box. -/
def RefreshUi.trace (network_flag server_instance clients_changed state devices_differ : Bool) :
    List sync_event :=
  [.lock .network]
  ++ (if network_flag then
        [.server_access] ++
        (if server_instance then
          [.server_access] ++ (if clients_changed then [.server_access] else [])
        else [])
      else [])
  ++ (if state then
        [.lock .gamepad_hook, .hook_access]
        ++ (if devices_differ then [.hook_access] else [])
        ++ [.lock .last_input, .unlock .last_input, .unlock .gamepad_hook]
      else [])
  ++ [.unlock .network]

/-- `PingClients`. -/
def PingClients.trace : List sync_event := [.server_access]

/-- `load_bindings`. -/
def load_bindings.trace : List sync_event :=
  [.lock .gamepad_hook, .hook_access, .unlock .gamepad_hook]

/-- `load_binding`, which its callers run under the hook mutex: it reads the
two mapping tables and the name of the binding. -/
def load_binding.trace : List sync_event := [.hook_access, .hook_access, .hook_access]

/-- `on_btn_add_bind_clicked`, following the branches of its body. -/
def on_btn_add_bind_clicked.trace (s : plugin_state) : List sync_event :=
  if s.ui.txt_new_binding_name.text.isEmpty then []
  else if s.ui.cb_bindings.findText s.ui.txt_new_binding_name.text != -1 then []
  else
    [.lock .gamepad_hook, .hook_access]
    ++ (match (s.hook_instance.get_device_by_id s.ui.cb_device.currentData).bind
          s.hook_instance.device_at with
        | none => []
        | some d =>
          [.hook_access] ++
          (if (s.hook_instance.get_binding_by_name d.get_binding.get_name).isSome then
            load_binding.trace
          else [.hook_access, .hook_access]))
    ++ [.unlock .gamepad_hook]

/-- `on_cb_device_currentIndexChanged`. -/
def on_cb_device_currentIndexChanged.trace (s : plugin_state) : List sync_event :=
  [.lock .gamepad_hook, .hook_access]
  ++ (match s.hook_instance.get_device_by_id s.ui.cb_device.currentData with
      | none => []
      | some _ => [.hook_access] ++ load_binding.trace)
  ++ [.unlock .gamepad_hook]

/-- `on_cb_bindings_currentIndexChanged`. -/
def on_cb_bindings_currentIndexChanged.trace (s : plugin_state) : List sync_event :=
  [.lock .gamepad_hook, .hook_access, .hook_access]
  ++ (match s.hook_instance.get_device_by_id s.ui.cb_device.currentData,
        s.hook_instance.get_binding_by_name s.ui.cb_bindings.currentText with
      | some _, some _ => [.hook_access]
      | _, _ => [])
  ++ [.unlock .gamepad_hook]

/-- `on_box_binding_accepted`: `get_binding_by_name`, then one write to a
mapping table for every text box that holds a number. -/
def on_box_binding_accepted.trace (numbers : Nat) : List sync_event :=
  [.hook_access] ++ List.replicate numbers .hook_access

/-- `input_source::update`. -/
def input_source.update.trace : List sync_event :=
  [.lock .gamepad_hook, .hook_access, .unlock .gamepad_hook]

/-- `input_source::tick`; `due` says whether the inner `if` is entered. -/
def input_source.tick.trace (due : Bool) : List sync_event :=
  if due then [.lock .gamepad_hook, .hook_access, .unlock .gamepad_hook] else []

/-- `reload_connections`. -/
def reload_connections.trace : List sync_event :=
  [.lock .network, .server_access, .unlock .network]

/-- `reload_pads`. -/
def reload_pads.trace : List sync_event :=
  [.lock .gamepad_hook, .hook_access, .unlock .gamepad_hook]

/-- `get_properties_for_overlay`. -/
def get_properties_for_overlay.trace (remote network_flag : Bool) : List sync_event :=
  (if remote && network_flag then [.server_access] else []) ++ reload_pads.trace

/-! ## Sample states

Concrete forms, configurations and settings the statements below are
evaluated on. -/

/-- A dialog with the binding "pad" in the box and the same name typed in. -/
def duplicate_name_dialog : plugin_state :=
  { ui := { cb_bindings := { items := ["pad"], currentIndex := 0 },
            txt_new_binding_name := { objectName := "txt_new_binding_name", text := "pad" } } }

/-- A libgamepad whose native binding is called "native". -/
def sample_libgamepad : libgamepad :=
  { codes := { of_button := fun b => b.toCtorIdx, of_axis := fun a => a.toCtorIdx },
    make_native_binding := fun h => ({ get_name := "native" }, h) }

/-- A form whose list-mode box offers two modes with the first preselected,
whose port box spans the port numbers and whose DirectInput button is off. -/
def sample_form : Ui.io_config_dialog :=
  { cb_list_mode := { items := ["Whitelist", "Blacklist"], currentIndex := 0 },
    box_port := { value := 1608, minimum := 0, maximum := 65535 },
    rb_dinput := { checked := false }, rb_xinput := { checked := true } }

/-- A configuration saved with the second filter mode and DirectInput. -/
def blacklist_dinput_config : io_config :=
  { uiohook := true, control := true, port := 1608, filter_mode := 1, use_dinput := true }

/-- Host settings that hold a horizontal centre of 5 and the use-centre flag
switched off. -/
def centre_off_settings : obs_data_t :=
  { get_int := fun k => if k = .S_MONITOR_H_CENTER then 5 else 0,
    get_string := fun _ => "",
    get_bool := fun _ => false }

/-- Host settings with every number 7, the layout "wasd.json", the texture
"wasd.png", no controller and the use-centre flag switched on. -/
def centre_on_settings : obs_data_t :=
  { get_int := fun _ => 7,
    get_string := fun k =>
      if k = .S_LAYOUT_FILE then "wasd.json" else if k = .S_OVERLAY_FILE then "wasd.png" else "",
    get_bool := fun _ => true }

/-- A source with a texture, a layout path and a loaded overlay. -/
def loaded_source : input_source :=
  { m_settings := { layout_file := "wasd.json" },
    m_overlay := { get_texture := some { texture := some 1 }, is_loaded := true },
    cx := 64, cy := 32 }

/-- Three filters shown and configured, the second row selected. -/
def second_of_three_selected : plugin_state :=
  { ui := { list_filters := { rows :=
      [{ text := "chrome" }, { text := "notepad", selected := true }, { text := "obs" }] } },
    config := { io_window_filters := { filters := ["chrome", "notepad", "obs"] } } }

/-- Two filters shown and configured, rows 17 pixels high, and the text of
the second one in the title box. -/
def second_filter_typed : plugin_state :=
  { ui := { list_filters := { rows := [{ text := "chrome" }, { text := "notepad" }],
                              rowHeight := 17, verticalOffset := 0 },
            cb_text := { currentText := "notepad" } },
    config := { io_window_filters := { filters := ["chrome", "notepad"] } } }

/-- The 21 text boxes filled with numbers: "1" for button A, the given text
for button B, "3" to "15" for the other buttons, "0" to "5" for the axes. -/
def numbered_line_edits (txt_b : String) : List QLineEdit :=
  [{ objectName := "txt_a", text := "1" }, { objectName := "txt_b", text := txt_b },
   { objectName := "txt_x", text := "3" }, { objectName := "txt_y", text := "4" },
   { objectName := "txt_rb", text := "5" }, { objectName := "txt_lb", text := "6" },
   { objectName := "txt_guide", text := "7" },
   { objectName := "txt_analog_left", text := "8" },
   { objectName := "txt_analog_right", text := "9" },
   { objectName := "txt_back", text := "10" },
   { objectName := "txt_start", text := "11" },
   { objectName := "txt_dpad_up", text := "12" },
   { objectName := "txt_dpad_down", text := "13" },
   { objectName := "txt_dpad_left", text := "14" },
   { objectName := "txt_dpad_right", text := "15" },
   { objectName := "txt_rx", text := "0" }, { objectName := "txt_ry", text := "1" },
   { objectName := "txt_lx", text := "2" }, { objectName := "txt_ly", text := "3" },
   { objectName := "txt_lt", text := "4" }, { objectName := "txt_rt", text := "5" }]

/-- The binding "pad" as a first `on_box_binding_accepted` left it when the
box of button A held 0 and no other box held a number: its one mapping is
native code 0 to button A. -/
def pad_with_a_on_0 (container : mappings_container) (c : gamepad.codes) : gamepad.cfg.binding :=
  { get_name := "pad", get_button_mappings := container.assign [] 0 (c.of_button .A) }

/-- The dialog of a user who moves button A from native code 0 to 1: the
binding "pad" is selected and still maps 0 to button A, one device uses it,
and all 21 text boxes hold numbers, "1" for button A and "2" for button
B. -/
def rebound_button_dialog (container : mappings_container) (c : gamepad.codes) : plugin_state :=
  { ui := { cb_bindings := { items := ["pad"], currentIndex := 0 },
            line_edits := numbered_line_edits "2" },
    hook_instance :=
      { get_bindings := [pad_with_a_on_0 container c],
        get_devices := [{ get_id := "0", get_name := "Gamepad",
                          get_binding := pad_with_a_on_0 container c }] } }

/-- The same dialog with "1" typed for button B as well. -/
def rebound_onto_shared_code_dialog (container : mappings_container) (c : gamepad.codes) :
    plugin_state :=
  { rebound_button_dialog container c with
    ui := { cb_bindings := { items := ["pad"], currentIndex := 0 },
            line_edits := numbered_line_edits "1" } }

/-- Flag constants with one bit each. -/
def one_bit_flags : overlay_flags :=
  { OF_MOUSE := 1, OF_GAMEPAD := 2, OF_LEFT_STICK := 4, OF_RIGHT_STICK := 8 }

/-- A source whose layout wants a gamepad, which has none yet, half a second
after the last look. -/
def waiting_source : input_source :=
  { m_settings := { layout_flags := 2, gamepad_id := "pad0", gamepad_check_timer := 1 / 2 } }

/-! ## Theorems -/

/-! ### Binding names -/

theorem isEmpty_iff_eq_empty (t : String) : t.isEmpty = true ↔ t = "" :=
  String.isEmpty_iff t

theorem findText_ne_iff_mem (c : QComboBox) (text : String) :
    (c.findText text != -1) = true ↔ text ∈ c.items := by
  unfold QComboBox.findText
  by_cases h : text ∈ c.items
  · have hlt : c.items.indexOf text < c.items.length := List.indexOf_lt_length.mpr h
    simp [hlt, h]
  · have hlt : ¬ c.items.indexOf text < c.items.length := by
      rw [List.indexOf_lt_length]; exact h
    simp [hlt, h]

theorem load_binding_items (c : gamepad.codes) (b : gamepad.cfg.binding)
    (ui : Ui.io_config_dialog) :
    (load_binding c b ui).cb_bindings.items = ui.cb_bindings.items := by
  unfold load_binding
  simp only
  split <;> simp [QComboBox.setCurrentIndex]

theorem on_btn_add_bind_clicked_of_empty (lib : libgamepad) (s : plugin_state)
    (he : s.ui.txt_new_binding_name.text.isEmpty = true) :
    on_btn_add_bind_clicked lib s = s := by
  unfold on_btn_add_bind_clicked
  rw [if_pos he]

theorem on_btn_add_bind_clicked_of_present (lib : libgamepad) (s : plugin_state)
    (he : ¬ s.ui.txt_new_binding_name.text.isEmpty = true)
    (hf : (s.ui.cb_bindings.findText s.ui.txt_new_binding_name.text != -1) = true) :
    on_btn_add_bind_clicked lib s =
      { s with ui := { s.ui with
          message_boxes := s.ui.message_boxes ++ [("Error", "Binding name must be unique")] } } := by
  unfold on_btn_add_bind_clicked
  rw [if_neg he, if_pos hf]

theorem on_btn_add_bind_clicked_of_fresh (lib : libgamepad) (s : plugin_state)
    (he : ¬ s.ui.txt_new_binding_name.text.isEmpty = true)
    (hf : ¬ (s.ui.cb_bindings.findText s.ui.txt_new_binding_name.text != -1) = true) :
    (on_btn_add_bind_clicked lib s).ui.cb_bindings.items =
      s.ui.cb_bindings.items ++ [s.ui.txt_new_binding_name.text] := by
  unfold on_btn_add_bind_clicked
  rw [if_neg he, if_neg hf]
  simp only
  split
  · rfl
  · split
    · rfl
    · split
      · rw [load_binding_items]; rfl
      · split <;> rfl

/-- C1: `on_btn_add_bind_clicked` appends the new-binding name to the
bindings list exactly when the name is non-empty and not yet in the list;
when the name is empty or already present, the bindings box and the whole
hook state (so the binding of every device) stay as they were. -/
theorem on_btn_add_bind_clicked_duplicate_check (lib : libgamepad) (s : plugin_state) :
    ((on_btn_add_bind_clicked lib s).ui.cb_bindings.items
        = s.ui.cb_bindings.items ++ [s.ui.txt_new_binding_name.text]
      ↔ (s.ui.txt_new_binding_name.text ≠ "" ∧
          s.ui.txt_new_binding_name.text ∉ s.ui.cb_bindings.items))
    ∧ ((s.ui.txt_new_binding_name.text = "" ∨
          s.ui.txt_new_binding_name.text ∈ s.ui.cb_bindings.items) →
        (on_btn_add_bind_clicked lib s).ui.cb_bindings = s.ui.cb_bindings ∧
        (on_btn_add_bind_clicked lib s).hook_instance = s.hook_instance) := by
  by_cases hempty : s.ui.txt_new_binding_name.text = ""
  · have he : s.ui.txt_new_binding_name.text.isEmpty = true :=
      (isEmpty_iff_eq_empty _).mpr hempty
    rw [on_btn_add_bind_clicked_of_empty lib s he]
    refine ⟨⟨fun h => ?_, fun h => absurd hempty h.1⟩, fun _ => ⟨rfl, rfl⟩⟩
    have := congrArg List.length h
    simp at this
  · have he : ¬ s.ui.txt_new_binding_name.text.isEmpty = true := fun h =>
      hempty ((isEmpty_iff_eq_empty _).mp h)
    by_cases hmem : s.ui.txt_new_binding_name.text ∈ s.ui.cb_bindings.items
    · have hf := (findText_ne_iff_mem s.ui.cb_bindings s.ui.txt_new_binding_name.text).mpr hmem
      rw [on_btn_add_bind_clicked_of_present lib s he hf]
      refine ⟨⟨fun h => ?_, fun h => absurd hmem h.2⟩, fun _ => ⟨rfl, rfl⟩⟩
      have := congrArg List.length h
      simp at this
    · have hf : ¬ (s.ui.cb_bindings.findText s.ui.txt_new_binding_name.text != -1) = true :=
        fun h => hmem ((findText_ne_iff_mem _ _).mp h)
      refine ⟨⟨fun _ => ⟨hempty, hmem⟩, fun _ => on_btn_add_bind_clicked_of_fresh lib s he hf⟩,
        fun h => ?_⟩
      rcases h with h | h
      · exact absurd h hempty
      · exact absurd h hmem

theorem on_btn_add_bind_clicked_duplicate_check_witness :
    (on_btn_add_bind_clicked sample_libgamepad duplicate_name_dialog).ui.cb_bindings
        = duplicate_name_dialog.ui.cb_bindings ∧
    (on_btn_add_bind_clicked sample_libgamepad duplicate_name_dialog).hook_instance
        = duplicate_name_dialog.hook_instance :=
  (on_btn_add_bind_clicked_duplicate_check sample_libgamepad duplicate_name_dialog).2
    (Or.inr (by decide))

/-! ### Constructor followed by `FormAccepted` -/

/-- The settings the constructor loads into a check box come back unchanged
from `FormAccepted`; the port comes back brought into the range of
`box_port`. -/
theorem FormAccepted_after_constructor_loaded (form : Ui.io_config_dialog)
    (windows : List String) (config : io_config) (hook : gamepad.hook) :
    let c := (FormAccepted (io_settings_dialog form windows config hook)).config
    c.uiohook = config.uiohook ∧ c.gamepad = config.gamepad ∧ c.overlay = config.overlay ∧
    c.control = config.control ∧ c.remote = config.remote ∧ c.log_flag = config.log_flag ∧
    c.port = max form.box_port.minimum (min form.box_port.maximum config.port) := by
  simp only [FormAccepted, io_settings_dialog, load_bindings, CbRemoteStateChanged,
    CbInputControlStateChanged, RefreshWindowList, QSpinBox.setValue]
  refine ⟨?_, ?_, ?_, ?_, ?_, ?_, ?_⟩ <;> split <;> rfl

/-- The constructor never loads `cb_list_mode` and `rb_dinput`, so after
`FormAccepted` the filter mode and the DirectInput flag are whatever the
form file preselects. -/
theorem FormAccepted_after_constructor_not_loaded (form : Ui.io_config_dialog)
    (windows : List String) (config : io_config) (hook : gamepad.hook) :
    let c := (FormAccepted (io_settings_dialog form windows config hook)).config
    c.filter_mode = form.cb_list_mode.currentIndex ∧ c.use_dinput = form.rb_dinput.checked := by
  simp only [FormAccepted, io_settings_dialog, load_bindings, CbRemoteStateChanged,
    CbInputControlStateChanged, RefreshWindowList, QSpinBox.setValue]
  refine ⟨?_, ?_⟩ <;> split <;> rfl

/-- C2 fails on the code: opening the dialog on a configuration with filter
mode 1 and DirectInput on, and accepting it untouched, writes filter mode 0
and DirectInput off. -/
theorem FormAccepted_after_constructor_resets_filter_mode :
    blacklist_dinput_config.filter_mode = 1 ∧
    (FormAccepted (io_settings_dialog sample_form [] blacklist_dinput_config {})).config.filter_mode
      = 0 ∧
    blacklist_dinput_config.use_dinput = true ∧
    (FormAccepted (io_settings_dialog sample_form [] blacklist_dinput_config {})).config.use_dinput
      = false := by
  refine ⟨rfl, ?_, rfl, ?_⟩
  · exact (FormAccepted_after_constructor_not_loaded sample_form [] blacklist_dinput_config {}).1
  · exact (FormAccepted_after_constructor_not_loaded sample_form [] blacklist_dinput_config {}).2

/-! ### `input_source::update` -/

theorem overlay_load.sample_keeps_stored_fields : overlay_load.sample.keeps_stored_fields := by
  intro st o
  simp [overlay_load.sample]

/-- After `update` the layout path is the stored one, whether or not the
overlay was reloaded. -/
theorem update_layout_file (ty : field_types) (load : overlay_load) (hook : gamepad.hook)
    (s : input_source) (settings : obs_data_t) (hload : load.keeps_layout_file) :
    (input_source.update ty load hook s settings).m_settings.layout_file
      = settings.get_string .S_LAYOUT_FILE := by
  by_cases hpath : (s.m_settings.layout_file != settings.get_string .S_LAYOUT_FILE) = true
  · by_cases hc : settings.get_bool .S_MONITOR_USE_CENTER = true
    · simp [input_source.update, input_source.call_load, hpath, hc, hload _ _]
    · simp [input_source.update, input_source.call_load, hpath, hc, hload _ _]
  · have heq : s.m_settings.layout_file = settings.get_string .S_LAYOUT_FILE := by
      simpa using hpath
    by_cases hc : settings.get_bool .S_MONITOR_USE_CENTER = true
    · simp [input_source.update, hpath, hc, heq]
    · simp [input_source.update, hpath, hc, heq]

/-- C3 as stated fails: with the use-centre flag stored false, `monitor_h`
keeps its old value 0 although the store holds 5 under the horizontal
centre key. -/
theorem update_skips_monitor_h_when_centre_off :
    (input_source.update field_types.wide overlay_load.sample {} {} centre_off_settings).m_settings.monitor_h
      ≠ centre_off_settings.get_int .S_MONITOR_H_CENTER := by
  decide

/-- C3, amended: after `update(settings)`, `selected_source`, `layout_file`,
`image_file`, `gamepad_id`, `mouse_sens` and `use_center` hold the value
stored under their key (integers converted to the field's type);
`monitor_h`, `monitor_w` and `mouse_deadzone` hold the stored value when the
stored use-centre flag is true and keep their previous value when it is
false. `overlay::load` is assumed to leave these fields alone. -/
theorem update_reads_settings (ty : field_types) (load : overlay_load) (hook : gamepad.hook)
    (s : input_source) (settings : obs_data_t) (hload : load.keeps_stored_fields) :
    let m := (input_source.update ty load hook s settings).m_settings
    m.selected_source = ty.selected_source (settings.get_int .S_INPUT_SOURCE) ∧
    m.layout_file = settings.get_string .S_LAYOUT_FILE ∧
    m.image_file = settings.get_string .S_OVERLAY_FILE ∧
    m.gamepad_id = settings.get_string .S_CONTROLLER_ID ∧
    m.mouse_sens = ty.mouse_sens (settings.get_int .S_MOUSE_SENS) ∧
    m.use_center = settings.get_bool .S_MONITOR_USE_CENTER ∧
    (settings.get_bool .S_MONITOR_USE_CENTER = true →
      m.monitor_h = ty.monitor_h (settings.get_int .S_MONITOR_H_CENTER) ∧
      m.monitor_w = ty.monitor_w (settings.get_int .S_MONITOR_V_CENTER) ∧
      m.mouse_deadzone = ty.mouse_deadzone (settings.get_int .S_MOUSE_DEAD_ZONE)) ∧
    (settings.get_bool .S_MONITOR_USE_CENTER = false →
      m.monitor_h = s.m_settings.monitor_h ∧
      m.monitor_w = s.m_settings.monitor_w ∧
      m.mouse_deadzone = s.m_settings.mouse_deadzone) := by
  intro m
  by_cases hpath : (s.m_settings.layout_file != settings.get_string .S_LAYOUT_FILE) = true
  · by_cases hc : settings.get_bool .S_MONITOR_USE_CENTER = true
    · simp [m, input_source.update, input_source.call_load, hpath, hc, hload _ _]
    · simp [m, input_source.update, input_source.call_load, hpath, hc, hload _ _]
  · have heq : s.m_settings.layout_file = settings.get_string .S_LAYOUT_FILE := by
      simpa using hpath
    by_cases hc : settings.get_bool .S_MONITOR_USE_CENTER = true
    · simp [m, input_source.update, hpath, hc, heq]
    · simp [m, input_source.update, hpath, hc, heq]

theorem update_reads_settings_witness :
    (input_source.update field_types.wide overlay_load.sample {} {} centre_on_settings).m_settings.layout_file
        = "wasd.json" ∧
    (input_source.update field_types.wide overlay_load.sample {} {} centre_on_settings).m_settings.monitor_h
        = 7 :=
  have h := update_reads_settings field_types.wide overlay_load.sample {} {} centre_on_settings
    overlay_load.sample_keeps_stored_fields
  ⟨h.2.1, (h.2.2.2.2.2.2.1 rfl).1⟩

theorem overlay_load.sample_keeps_layout_file : overlay_load.sample.keeps_layout_file :=
  fun _ _ => rfl

/-- C8: when the stored layout path differs from `m_settings.layout_file`,
`update` invokes the overlay's `load` exactly once, on settings `found` that
already hold the stored `image_file` and the stored layout path, and the
source carries on with what that call returns: the overlay and the settings
fields `update` does not assign afterwards are those `load` produced. When
the paths are equal `load` is not invoked: no call is recorded and the
overlay and those fields are as before. The layout path afterwards is the
one `load` leaves, which is the stored path when `load` does not write
`layout_file`. -/
theorem update_reloads_only_on_path_change (ty : field_types) (load : overlay_load)
    (hook : gamepad.hook) (s : input_source) (settings : obs_data_t) :
    let found : overlay_settings := { s.m_settings with
      selected_source := ty.selected_source (settings.get_int .S_INPUT_SOURCE),
      image_file := settings.get_string .S_OVERLAY_FILE,
      layout_file := settings.get_string .S_LAYOUT_FILE }
    let r := input_source.update ty load hook s settings
    (found.image_file = settings.get_string .S_OVERLAY_FILE ∧
      found.layout_file = settings.get_string .S_LAYOUT_FILE) ∧
    (s.m_settings.layout_file ≠ settings.get_string .S_LAYOUT_FILE →
      r.load_calls = s.load_calls ++ [found] ∧
      r.m_overlay = (load found s.m_overlay).2 ∧
      r.m_settings.layout_file = (load found s.m_overlay).1.layout_file ∧
      r.m_settings.image_file = (load found s.m_overlay).1.image_file ∧
      r.m_settings.selected_source = (load found s.m_overlay).1.selected_source ∧
      r.m_settings.layout_flags = (load found s.m_overlay).1.layout_flags ∧
      r.m_settings.cx = (load found s.m_overlay).1.cx ∧
      r.m_settings.cy = (load found s.m_overlay).1.cy) ∧
    (s.m_settings.layout_file = settings.get_string .S_LAYOUT_FILE →
      r.load_calls = s.load_calls ∧
      r.m_overlay = s.m_overlay ∧
      r.m_settings.layout_file = settings.get_string .S_LAYOUT_FILE ∧
      r.m_settings.image_file = settings.get_string .S_OVERLAY_FILE ∧
      r.m_settings.layout_flags = s.m_settings.layout_flags ∧
      r.m_settings.cx = s.m_settings.cx ∧
      r.m_settings.cy = s.m_settings.cy) ∧
    (load.keeps_layout_file →
      r.m_settings.layout_file = settings.get_string .S_LAYOUT_FILE) := by
  intro found r
  refine ⟨⟨rfl, rfl⟩, fun hne => ?_, fun heq => ?_,
    fun hload => update_layout_file ty load hook s settings hload⟩
  · have hpath : (s.m_settings.layout_file != settings.get_string .S_LAYOUT_FILE) = true := by
      simpa using hne
    by_cases hc : settings.get_bool .S_MONITOR_USE_CENTER = true
    · simp [r, found, input_source.update, input_source.call_load, hpath, hc]
    · simp [r, found, input_source.update, input_source.call_load, hpath, hc]
  · by_cases hc : settings.get_bool .S_MONITOR_USE_CENTER = true
    · simp [r, input_source.update, heq, hc]
    · simp [r, input_source.update, heq, hc]

theorem update_reloads_only_on_path_change_witness :
    ((input_source.update field_types.wide overlay_load.sample {} {} centre_on_settings).load_calls
        = [{ selected_source := 7, image_file := "wasd.png", layout_file := "wasd.json" }] ∧
      (input_source.update field_types.wide overlay_load.sample {} {}
        centre_on_settings).m_overlay.is_loaded = true ∧
      (input_source.update field_types.wide overlay_load.sample {} {}
        centre_on_settings).m_settings.layout_flags = 9) ∧
    ((input_source.update field_types.wide overlay_load.sample {}
        { m_settings := { layout_file := "wasd.json" } } centre_on_settings).load_calls = [] ∧
      (input_source.update field_types.wide overlay_load.sample {}
        { m_settings := { layout_file := "wasd.json" } } centre_on_settings).m_overlay.is_loaded
          = false) ∧
    (input_source.update field_types.wide overlay_load.sample {} {}
      centre_on_settings).m_settings.layout_file = "wasd.json" :=
  have changed := (update_reloads_only_on_path_change field_types.wide overlay_load.sample {} {}
    centre_on_settings).2.1 (by decide)
  have same := (update_reloads_only_on_path_change field_types.wide overlay_load.sample {}
    { m_settings := { layout_file := "wasd.json" } } centre_on_settings).2.2.1 rfl
  have path := (update_reloads_only_on_path_change field_types.wide overlay_load.sample {} {}
    centre_on_settings).2.2.2 overlay_load.sample_keeps_layout_file
  ⟨⟨changed.1, congrArg overlay.is_loaded changed.2.1, changed.2.2.2.2.2.1.trans (by decide)⟩,
   ⟨same.1, congrArg overlay.is_loaded same.2.1⟩, path⟩

/-! ### `input_source::render` -/

/-- C6: `render` draws nothing when the overlay has no texture object or the
object holds no texture; otherwise it draws the plain texture sprite when
the layout path is empty or the overlay is not loaded; otherwise it hands
over to the overlay's `draw`. In every case the source, and so `m_settings`,
is left as it was. -/
theorem render_dispatch (s : input_source) :
    (input_source.render s).1 = s ∧
    ((s.m_overlay.get_texture = none ∨ s.m_overlay.get_texture = some { texture := none }) →
      (input_source.render s).2 = []) ∧
    (∀ texture, s.m_overlay.get_texture = some { texture := some texture } →
      ((s.m_settings.layout_file = "" ∨ s.m_overlay.is_loaded = false) →
        (input_source.render s).2 =
          [.gs_effect_set_texture "image" texture, .gs_draw_sprite texture 0 s.cx s.cy]) ∧
      ((s.m_settings.layout_file ≠ "" ∧ s.m_overlay.is_loaded = true) →
        (input_source.render s).2 = [.overlay_draw])) := by
  refine ⟨?_, ?_, ?_⟩
  · unfold input_source.render
    split
    · rfl
    · split
      · rfl
      · split <;> rfl
  · rintro (h | h) <;> simp [input_source.render, h]
  · intro texture h
    constructor
    · rintro (hl | hl)
      · have : s.m_settings.layout_file.isEmpty = true := (isEmpty_iff_eq_empty _).mpr hl
        simp [input_source.render, h, this]
      · simp [input_source.render, h, hl]
    · rintro ⟨hl, hld⟩
      have : ¬ s.m_settings.layout_file.isEmpty = true := fun e =>
        hl ((isEmpty_iff_eq_empty _).mp e)
      simp [input_source.render, h, this, hld]

theorem render_dispatch_witness :
    (input_source.render loaded_source).2 = [.overlay_draw] ∧
    (input_source.render { loaded_source with m_overlay := {} }).2 = [] :=
  ⟨((render_dispatch loaded_source).2.2 1 rfl).2 ⟨by decide, rfl⟩,
   (render_dispatch { loaded_source with m_overlay := {} }).2.1 (Or.inl rfl)⟩

/-! ### Property visibility -/

/-- C7: in the property set `get_properties_for_overlay` returns, the mouse
sensitivity, use-monitor-centre and mouse dead-zone properties are visible
iff `OF_MOUSE` is set in `layout_flags`, the controller-id list iff one of
`OF_GAMEPAD`, `OF_LEFT_STICK`, `OF_RIGHT_STICK` is set, and the
reload-pad-devices button iff `OF_GAMEPAD` is set. -/
theorem get_properties_for_overlay_visibility (of : overlay_flags) (remote network_flag : Bool)
    (clients : List (String × String)) (hook : gamepad.hook) (src : input_source) :
    let props := get_properties_for_overlay of remote network_flag clients hook src
    let flags := src.m_settings.layout_flags
    obs_property_visible props .S_MOUSE_SENS = some (decide (flags &&& of.OF_MOUSE ≠ 0)) ∧
    obs_property_visible props .S_MONITOR_USE_CENTER
      = some (decide (flags &&& of.OF_MOUSE ≠ 0)) ∧
    obs_property_visible props .S_MOUSE_DEAD_ZONE = some (decide (flags &&& of.OF_MOUSE ≠ 0)) ∧
    obs_property_visible props .S_CONTROLLER_ID
      = some (decide (flags &&& of.OF_GAMEPAD ≠ 0 ∨ flags &&& of.OF_LEFT_STICK ≠ 0 ∨
          flags &&& of.OF_RIGHT_STICK ≠ 0)) ∧
    obs_property_visible props .S_RELOAD_PAD_DEVICES
      = some (decide (flags &&& of.OF_GAMEPAD ≠ 0)) := by
  have hflag : ∀ f c : Nat, has_flag f c = decide (f &&& c ≠ 0) := by
    intro f c
    by_cases h : f &&& c = 0 <;> simp [has_flag, h]
  cases remote <;> cases network_flag <;>
    simp [get_properties_for_overlay, obs_properties_add, obs_property_set_visible,
      obs_property_list_set, obs_property_visible, reload_pads, hflag]

/-! ### Section toggles -/

theorem foldl_addItem (fs : List String) (l : QListWidget) :
    fs.foldl QListWidget.addItem l
      = { l with rows := l.rows ++ fs.map (fun t => { text := t }) } := by
  induction fs generalizing l with
  | nil => simp
  | cons f fs ih => simp [ih, QListWidget.addItem]

/-- C10 as stated fails: with `remote = 1` and `control = 0` the box
`cb_regex`, which `CbRemoteStateChanged` toggles, ends up disabled although
`remote` is non-zero. -/
theorem cb_regex_disabled_although_remote_set :
    ¬ ((CbInputControlStateChanged 0 (CbRemoteStateChanged 1 {})).cb_regex.enabled = true
        ↔ (1 : Int) ≠ 0) := by
  decide

/-- C10, amended: after `CbRemoteStateChanged(remote)` and then
`CbInputControlStateChanged(control)`, `cb_log`, `box_port`,
`box_connections`, `btn_refresh` and `box_refresh_rate` are enabled iff
`remote` is non-zero, and `cb_list_mode`, `cb_text`, `btn_add`,
`btn_remove`, `list_filters`, `btn_refresh_cb` and `cb_regex` are enabled
iff `control` is non-zero; the dialog the constructor builds is in that
state for the configured `remote` and `control`. -/
theorem section_toggles (remote control : Int) (ui : Ui.io_config_dialog)
    (form : Ui.io_config_dialog) (windows : List String) (config : io_config)
    (hook : gamepad.hook) :
    (let ui2 := CbInputControlStateChanged control (CbRemoteStateChanged remote ui)
     (ui2.cb_log.enabled = true ↔ remote ≠ 0) ∧ (ui2.box_port.enabled = true ↔ remote ≠ 0) ∧
     (ui2.box_connections.enabled = true ↔ remote ≠ 0) ∧
     (ui2.btn_refresh.enabled = true ↔ remote ≠ 0) ∧
     (ui2.box_refresh_rate.enabled = true ↔ remote ≠ 0) ∧
     (ui2.cb_list_mode.enabled = true ↔ control ≠ 0) ∧
     (ui2.cb_text.enabled = true ↔ control ≠ 0) ∧ (ui2.btn_add.enabled = true ↔ control ≠ 0) ∧
     (ui2.btn_remove.enabled = true ↔ control ≠ 0) ∧
     (ui2.list_filters.enabled = true ↔ control ≠ 0) ∧
     (ui2.btn_refresh_cb.enabled = true ↔ control ≠ 0) ∧
     (ui2.cb_regex.enabled = true ↔ control ≠ 0)) ∧
    (let d := (io_settings_dialog form windows config hook).ui
     d.cb_log.enabled = config.remote ∧ d.box_port.enabled = config.remote ∧
     d.box_connections.enabled = config.remote ∧ d.btn_refresh.enabled = config.remote ∧
     d.box_refresh_rate.enabled = config.remote ∧
     d.cb_list_mode.enabled = config.control ∧ d.cb_text.enabled = config.control ∧
     d.btn_add.enabled = config.control ∧ d.btn_remove.enabled = config.control ∧
     d.list_filters.enabled = config.control ∧ d.btn_refresh_cb.enabled = config.control ∧
     d.cb_regex.enabled = config.control) := by
  constructor
  · simp [CbInputControlStateChanged, CbRemoteStateChanged, to_bool]
  · simp only [io_settings_dialog, load_bindings, CbInputControlStateChanged,
      CbRemoteStateChanged, RefreshWindowList, to_bool]
    cases hr : config.remote <;> cases hc : config.control <;> simp [foldl_addItem]

/-! ### The filter list and the configured filters -/

/-- The constructor appends the configured filters to the rows the form
starts with, so a form with an empty list ends up showing exactly them. -/
theorem constructor_fills_list_filters (form : Ui.io_config_dialog) (windows : List String)
    (config : io_config) (hook : gamepad.hook) :
    (io_settings_dialog form windows config hook).ui.list_filters.texts
      = form.list_filters.texts ++ config.io_window_filters.filters := by
  simp only [io_settings_dialog, load_bindings, CbInputControlStateChanged,
    CbRemoteStateChanged, RefreshWindowList]
  have hmap : ∀ fs : List String,
      List.map ((fun it : QListWidgetItem => it.text) ∘ fun t => { text := t, selected := false })
        fs = fs := by
    intro fs
    induction fs with
    | nil => rfl
    | cons f fs ih => simp [ih]
  split <;> simp [foldl_addItem, QListWidget.texts, hmap]

/-- `AddFilter` keeps the list and the configured filters equal: it either
changes neither or appends the current text to both. -/
theorem AddFilter_keeps_mirror (s r : plugin_state)
    (hmirror : s.ui.list_filters.texts = s.config.io_window_filters.filters)
    (hr : AddFilter s = some r) :
    r.ui.list_filters.texts = r.config.io_window_filters.filters := by
  unfold AddFilter at hr
  split at hr
  · exact absurd hr (by simp)
  · cases hr; exact hmirror
  · cases hr
    simp [QListWidget.texts, QListWidget.addItem, window_filters.add_filter] at hmirror ⊢
    exact hmirror

/-- `AddFilter` returns whenever every point `(0, i)` with `i < count` lies
on a row. -/
theorem AddFilter_returns (s : plugin_state)
    (hrows : ∀ i, i < s.ui.list_filters.count → (s.ui.list_filters.itemAt 0 (i : Int)).isSome) :
    (AddFilter s).isSome := by
  have hscan : ∀ is : List Nat, (∀ i ∈ is, i < s.ui.list_filters.count) →
      (AddFilter.scan s.ui.list_filters s.ui.cb_text.currentText is).isSome := by
    intro is
    induction is with
    | nil => intro _; rfl
    | cons i rest ih =>
      intro h
      have hi := hrows i (h i (List.mem_cons_self _ _))
      unfold AddFilter.scan
      cases hit : s.ui.list_filters.itemAt 0 (i : Int) with
      | none => simp [hit] at hi
      | some it =>
        simp only
        split
        · rfl
        · exact ih (fun j hj => h j (List.mem_cons_of_mem _ hj))
  have h := hscan (List.range s.ui.list_filters.count) (fun i hi => List.mem_range.mp hi)
  unfold AddFilter
  cases hs : AddFilter.scan s.ui.list_filters s.ui.cb_text.currentText
      (List.range s.ui.list_filters.count) with
  | none => simp [hs] at h
  | some b => cases b <;> rfl

/-- C4 fails on the code: with the second of three rows selected,
`RemoveFilter` deletes the selected row "notepad" from the list but calls
`remove_filter(0)`, which drops "chrome" from the configured filters; the
list and the configuration agreed before and differ afterwards. -/
theorem RemoveFilter_removes_wrong_filter :
    second_of_three_selected.ui.list_filters.texts
      = second_of_three_selected.config.io_window_filters.filters ∧
    (RemoveFilter second_of_three_selected).ui.list_filters.texts = ["chrome", "obs"] ∧
    (RemoveFilter second_of_three_selected).config.io_window_filters.filters
      = ["notepad", "obs"] := by
  decide

/-- C9 fails on the code: "notepad" is the text of the second row, yet
`AddFilter` appends it again to the list and to the configured filters,
because `itemAt(0, 0)` and `itemAt(0, 1)` are both the first row. -/
theorem AddFilter_appends_existing_filter :
    "notepad" ∈ second_filter_typed.ui.list_filters.texts ∧
    second_filter_typed.ui.list_filters.itemAt 0 0 = some { text := "chrome" } ∧
    second_filter_typed.ui.list_filters.itemAt 0 1 = some { text := "chrome" } ∧
    (AddFilter second_filter_typed).map (fun r => r.ui.list_filters.texts)
      = some ["chrome", "notepad", "notepad"] ∧
    (AddFilter second_filter_typed).map (fun r => r.config.io_window_filters.filters)
      = some ["chrome", "notepad", "notepad"] := by
  decide

/-! ### Locks -/

/-- The handlers that do keep the discipline, on every path through them. -/
theorem locked_handlers (s : plugin_state) (a b c d e : Bool) :
    well_locked (RefreshUi.trace a b c d e) = true ∧
    well_locked load_bindings.trace = true ∧
    well_locked (on_btn_add_bind_clicked.trace s) = true ∧
    well_locked (on_cb_device_currentIndexChanged.trace s) = true ∧
    well_locked (on_cb_bindings_currentIndexChanged.trace s) = true ∧
    well_locked input_source.update.trace = true ∧
    well_locked (input_source.tick.trace a) = true ∧
    well_locked reload_connections.trace = true ∧
    well_locked reload_pads.trace = true := by
  refine ⟨?_, by decide, ?_, ?_, ?_, by decide, ?_, by decide, by decide⟩
  · cases a <;> cases b <;> cases c <;> cases d <;> cases e <;> decide
  · unfold on_btn_add_bind_clicked.trace
    split
    · decide
    · split
      · decide
      · split
        · decide
        · split <;> decide
  · unfold on_cb_device_currentIndexChanged.trace
    split <;> decide
  · unfold on_cb_bindings_currentIndexChanged.trace
    split <;> decide
  · cases a <;> decide

/-- C5 fails on the code: `on_box_binding_accepted` reads the bindings and
writes the mapping tables with the hook mutex not taken, `PingClients`
calls the server instance with the network mutex not taken, and so does
`get_properties_for_overlay` when remote input is enabled and the server
runs. -/
theorem unlocked_accesses :
    (∀ numbers, well_locked (on_box_binding_accepted.trace numbers) = false) ∧
    well_locked PingClients.trace = false ∧
    well_locked (get_properties_for_overlay.trace true true) = false := by
  refine ⟨fun n => ?_, by decide, by decide⟩
  simp [well_locked, on_box_binding_accepted.trace, locks.run, locks.step]

/-! ### Saving and reloading a binding -/

/-- `setText` on the box of one name changes the text of that box and of no
other. -/
theorem findChild_setText (name other text : String) (edits : List QLineEdit) :
    findChild name (setText_of_child other text edits)
      = if name = other then (findChild name edits).map (fun e => { e with text := text })
        else findChild name edits := by
  induction edits with
  | nil => simp [findChild, setText_of_child]
  | cons e rest ih =>
    unfold setText_of_child
    by_cases he : e.objectName = other
    · by_cases hn : name = other
      · simp [findChild, he, hn]
      · have hne : ¬ other = name := fun h => hn h.symm
        simp [findChild, he, hn, hne]
    · by_cases hn : name = other
      · have hen : ¬ e.objectName = name := fun h => he (h.trans hn)
        have ih2 := ih
        simp only [findChild, hn, if_true] at ih2
        simp [findChild, he, hn, ih2]
      · by_cases hen : e.objectName = name
        · simp [findChild, he, hn, hen]
        · have ih2 := ih
          simp only [findChild, hn, if_false] at ih2
          simp [findChild, he, hn, hen, ih2]

/-- A loop of `on_box_binding_accepted` started on a binding returns a
binding, and keeps whatever every single write keeps. -/
theorem store_transfer_invariant (to_key : Int → Int) (edits : List QLineEdit)
    (write : gamepad.cfg.binding → Int → Nat → gamepad.cfg.binding)
    (P : gamepad.cfg.binding → Prop) (table : List (String × Nat))
    (hstep : ∀ b pair i, P b → pair ∈ table → shown_number pair.1 edits = some i →
      P (write b (to_key i) pair.2)) :
    ∀ (rest : List (String × Nat)) (b : gamepad.cfg.binding),
      (∀ pair ∈ rest, pair ∈ table) → P b →
      ∃ r, on_box_binding_accepted.transfer to_key edits write rest (some b) = some (some r) ∧
        P r := by
  intro rest
  induction rest with
  | nil => intro b _ hP; exact ⟨b, rfl, hP⟩
  | cons pair rest ih =>
    intro b hsub hP
    have hrest : ∀ q ∈ rest, q ∈ table := fun q hq => hsub q (List.mem_cons_of_mem _ hq)
    unfold on_box_binding_accepted.transfer
    cases hf : findChild pair.1 edits with
    | none => exact ih b hrest hP
    | some text_box =>
      cases ht : QString.toInt text_box.text with
      | none =>
        simp only [ht]
        exact ih b hrest hP
      | some i =>
        have hshown : shown_number pair.1 edits = some i := by
          simp [shown_number, hf, ht]
        simp only [ht]
        exact ih _ hrest (hstep b pair i hP (hsub pair (List.mem_cons_self _ _)) hshown)

theorem load_binding_line_edits (c : gamepad.codes) (b : gamepad.cfg.binding)
    (ui : Ui.io_config_dialog) :
    (load_binding c b ui).line_edits
      = load_binding.transfer b.get_axis_mappings (axis_map c)
          (load_binding.transfer b.get_button_mappings (button_map c) ui.line_edits) := by
  unfold load_binding
  simp only
  split <;> rfl

theorem sample_codes_injective :
    Function.Injective sample_libgamepad.codes.of_button ∧
    Function.Injective sample_libgamepad.codes.of_axis := by
  constructor
  · intro x y h
    cases x <;> cases y <;> first | rfl | exact absurd h (by decide)
  · intro x y h
    cases x <;> cases y <;> first | rfl | exact absurd h (by decide)

/-- After the binding found under a name took a new value of the same name,
that value is what the name finds. -/
theorem get_binding_by_name_store (name : String) (b r : gamepad.cfg.binding)
    (l : List gamepad.cfg.binding)
    (hb : l.find? (fun x => x.get_name == name) = some b) (hr : r.get_name = name) :
    (gamepad.hook.store_binding name r l).find? (fun x => x.get_name == name) = some r := by
  induction l with
  | nil => simp at hb
  | cons x rest ih =>
    unfold gamepad.hook.store_binding
    by_cases hx : x.get_name = name
    · simp [hx, hr]
    · have hx2 : (x.get_name == name) = false := by simpa using hx
      have hb2 : rest.find? (fun x => x.get_name == name) = some b := by
        simpa only [List.find?_cons, hx2] using hb
      simp [hx, ih hb2]

/-- When the mappings hold a code under one key only, that key is what
`find_by_code` returns, wherever the entry stands in the iteration. -/
theorem find_by_code_unique (needle : String × Nat) (k : Int) (m : gamepad.cfg.mappings)
    (hmem : (k, needle.2) ∈ m) (honly : ∀ n, (n, needle.2) ∈ m → n = k) :
    find_by_code needle m = k := by
  induction m with
  | nil => simp at hmem
  | cons p rest ih =>
    unfold find_by_code
    split
    · rename_i hp
      have hp2 : p.2 = needle.2 := by simpa using hp
      exact honly p.1 (by rw [← hp2]; exact List.mem_cons_self _ _)
    · rename_i hp
      have hne : ¬ p.2 = needle.2 := by simpa using hp
      rcases List.mem_cons.mp hmem with h | h
      · exact absurd (by rw [← h]) hne
      · exact ih h (fun n hn => honly n (List.mem_cons_of_mem _ hn))

/-- A loop of `load_binding` changes no text box the table does not name. -/
theorem load_transfer_other (m : gamepad.cfg.mappings) (name : String) :
    ∀ (rest : List (String × Nat)) (edits : List QLineEdit),
      (∀ pair ∈ rest, pair.1 ≠ name) →
      findChild name (load_binding.transfer m rest edits) = findChild name edits := by
  intro rest
  induction rest with
  | nil => intro edits _; rfl
  | cons pair rest ih =>
    intro edits hnames
    have hpair : ¬ name = pair.1 := fun h => hnames pair (List.mem_cons_self _ _) h.symm
    have hrest : ∀ q ∈ rest, q.1 ≠ name := fun q hq => hnames q (List.mem_cons_of_mem _ hq)
    unfold load_binding.transfer
    simp only
    split
    · rw [ih _ hrest, findChild_setText, if_neg hpair]
    · exact ih edits hrest

/-- With the ordered map, moving button A from native code 0 to 1 already
fails to come back: 0 stays mapped to A and is found first. The device that
uses the binding sees the same mappings as the hook's list. -/
theorem rebound_button_shows_old_code :
    shown_number "txt_a" (rebound_button_dialog std_map sample_libgamepad.codes).ui.line_edits
      = some 1 ∧
    (save_then_load std_map id sample_libgamepad.codes
        (rebound_button_dialog std_map sample_libgamepad.codes)).map
      (fun ui => shown_number "txt_a" ui.line_edits) = some (some 0) ∧
    (on_box_binding_accepted std_map id sample_libgamepad.codes
        (rebound_button_dialog std_map sample_libgamepad.codes)).map
      (fun r => r.hook_instance.get_devices.map (fun d => d.get_binding))
      = (on_box_binding_accepted std_map id sample_libgamepad.codes
          (rebound_button_dialog std_map sample_libgamepad.codes)).map
        (fun r => r.hook_instance.get_bindings) := by
  decide

/-- The numbers in the boxes of the buttons after A and B are between 1 and
15, and their codes are not the code of A. -/
theorem later_buttons (c : gamepad.codes) (hcodes : Function.Injective c.of_button) :
    ∀ pair ∈ (button_map c).drop 2, ∀ i,
      shown_number pair.1 (numbered_line_edits "1") = some i →
      (1 ≤ i ∧ i ≤ 15) ∧ pair.2 ≠ c.of_button .A := by
  have hall : ∀ name ∈ ["txt_x", "txt_y", "txt_rb", "txt_lb", "txt_guide", "txt_analog_left",
      "txt_analog_right", "txt_back", "txt_start", "txt_dpad_up", "txt_dpad_down",
      "txt_dpad_left", "txt_dpad_right"],
      (shown_number name (numbered_line_edits "1")).all (fun k => decide (1 ≤ k ∧ k ≤ 15))
        = true := by
    decide
  have hrange : ∀ name ∈ ["txt_x", "txt_y", "txt_rb", "txt_lb", "txt_guide",
      "txt_analog_left", "txt_analog_right", "txt_back", "txt_start", "txt_dpad_up",
      "txt_dpad_down", "txt_dpad_left", "txt_dpad_right"], ∀ i,
      shown_number name (numbered_line_edits "1") = some i → 1 ≤ i ∧ i ≤ 15 := by
    intro name hname i hshown
    have h := hall name hname
    rw [hshown] at h
    simpa using h
  intro pair hpair i hshown
  simp only [button_map, List.drop_succ_cons, List.drop_zero, List.mem_cons, List.mem_singleton,
    List.not_mem_nil, or_false] at hpair
  rcases hpair with rfl | rfl | rfl | rfl | rfl | rfl | rfl | rfl | rfl | rfl | rfl | rfl | rfl
  all_goals
    refine ⟨hrange _ ?_ i hshown, fun h => absurd (hcodes h) (by decide)⟩
    simp

/-- No pair of `button_map` after the first, and no pair of `axis_map`,
names the text box of button A. -/
theorem other_names (c : gamepad.codes) :
    (∀ pair ∈ (button_map c).drop 1, pair.1 ≠ "txt_a") ∧
    (∀ pair ∈ axis_map c, pair.1 ≠ "txt_a") := by
  constructor
  · intro pair hpair
    simp only [button_map, List.drop_succ_cons, List.drop_zero, List.mem_cons,
      List.mem_singleton, List.not_mem_nil, or_false] at hpair
    rcases hpair with rfl | rfl | rfl | rfl | rfl | rfl | rfl | rfl | rfl | rfl | rfl | rfl |
      rfl | rfl <;> simp
  · intro pair hpair
    simp only [axis_map, List.mem_cons, List.mem_singleton, List.not_mem_nil, or_false] at hpair
    rcases hpair with rfl | rfl | rfl | rfl | rfl | rfl <;> simp

/-- C11 fails on the code, whatever order the mappings container iterates
in: the binding maps native code 0 to button A, the user types 1 for button
A (and 1 is also what the box of button B holds); `on_box_binding_accepted`
returns, yet 0 is still mapped to A, and `load_binding` on the same binding
puts 0 back into the box that held 1. -/
theorem stale_mapping_comes_back (container : mappings_container) (to_key : Int → Int)
    (c : gamepad.codes) (hkey : ∀ i : Int, 0 ≤ i → i ≤ 15 → to_key i = i)
    (hcodes : Function.Injective c.of_button) :
    shown_number "txt_a" (rebound_onto_shared_code_dialog container c).ui.line_edits = some 1 ∧
    ∃ ui, save_then_load container to_key c (rebound_onto_shared_code_dialog container c)
        = some ui ∧
      shown_number "txt_a" ui.line_edits = some 0 := by
  refine ⟨by show shown_number "txt_a" (numbered_line_edits "1") = some 1; decide, ?_⟩
  have hAB : c.of_button .A ≠ c.of_button .B := fun h => absurd (hcodes h) (by decide)
  have hk1 : to_key 1 = 1 := hkey 1 (by decide) (by decide)
  /- the two writes of the colliding boxes -/
  have v0 : container.valid (container.assign [] 0 (c.of_button .A)) :=
    container.valid_assign _ _ _ container.valid_nil
  have v1 := container.valid_assign _ 1 (c.of_button .A) v0
  have v2 := container.valid_assign _ 1 (c.of_button .B) v1
  have hmem2 : ((0 : Int), c.of_button .A) ∈ container.assign
      (container.assign (container.assign [] 0 (c.of_button .A)) 1 (c.of_button .A)) 1
        (c.of_button .B) := by
    rw [container.mem_assign _ _ _ _ v1, container.mem_assign _ _ _ _ v0,
      container.mem_assign _ _ _ _ container.valid_nil]
    have h01 : ((0 : Int), c.of_button .A).1 ≠ 1 := by show (0 : Int) ≠ 1; decide
    exact Or.inr ⟨Or.inr ⟨Or.inl rfl, h01⟩, h01⟩
  have honly2 : ∀ n : Int, (n, c.of_button .A) ∈ container.assign
      (container.assign (container.assign [] 0 (c.of_button .A)) 1 (c.of_button .A)) 1
        (c.of_button .B) → n = 0 := by
    intro n hn
    rw [container.mem_assign _ _ _ _ v1, container.mem_assign _ _ _ _ v0,
      container.mem_assign _ _ _ _ container.valid_nil] at hn
    rcases hn with hn | ⟨(hn | ⟨(hn | ⟨hn, _⟩), _⟩), hne⟩
    · exact absurd (congrArg Prod.snd hn) hAB
    · exact absurd (congrArg Prod.fst hn) hne
    · exact congrArg Prod.fst hn
    · exact absurd hn (List.not_mem_nil _)
  /- the loop over the buttons: the first two pairs, then the other thirteen -/
  have hstart : on_box_binding_accepted.transfer to_key (numbered_line_edits "1")
      (gamepad.cfg.binding.set_button container) (button_map c)
        (some (pad_with_a_on_0 container c))
      = on_box_binding_accepted.transfer to_key (numbered_line_edits "1")
          (gamepad.cfg.binding.set_button container) ((button_map c).drop 2)
          (some (gamepad.cfg.binding.set_button container
            (gamepad.cfg.binding.set_button container (pad_with_a_on_0 container c) (to_key 1)
              (c.of_button .A)) (to_key 1) (c.of_button .B))) := by
    rfl
  obtain ⟨b1, hrun1, hname1, hvalid1, hmem1, honly1⟩ :=
    store_transfer_invariant to_key (numbered_line_edits "1")
      (gamepad.cfg.binding.set_button container)
      (fun r => r.get_name = "pad" ∧ container.valid r.get_button_mappings ∧
        ((0 : Int), c.of_button .A) ∈ r.get_button_mappings ∧
        ∀ n : Int, (n, c.of_button .A) ∈ r.get_button_mappings → n = 0)
      ((button_map c).drop 2)
      (by
        intro r pair i hP hpair hshown
        obtain ⟨hrange, hcode⟩ := later_buttons c hcodes pair hpair i hshown
        have hk : to_key i = i := hkey i (by omega) hrange.2
        rw [hk]
        refine ⟨hP.1, container.valid_assign _ _ _ hP.2.1, ?_, ?_⟩
        · exact (container.mem_assign _ _ _ _ hP.2.1).mpr
            (Or.inr ⟨hP.2.2.1, by show (0 : Int) ≠ i; omega⟩)
        · intro n hn
          rcases (container.mem_assign _ _ _ _ hP.2.1).mp hn with hn | ⟨hn, _⟩
          · exact absurd (congrArg Prod.snd hn).symm hcode
          · exact hP.2.2.2 n hn)
      ((button_map c).drop 2)
      (gamepad.cfg.binding.set_button container
        (gamepad.cfg.binding.set_button container (pad_with_a_on_0 container c) (to_key 1)
          (c.of_button .A)) (to_key 1) (c.of_button .B))
      (fun _ h => h)
      (by rw [hk1]; exact ⟨rfl, v2, hmem2, honly2⟩)
  /- the loop over the axes leaves the button mappings alone -/
  obtain ⟨b2, hrun2, hname2, hvalid2, hmem2b, honly2b⟩ :=
    store_transfer_invariant to_key (numbered_line_edits "1")
      (gamepad.cfg.binding.set_axis container)
      (fun r => r.get_name = "pad" ∧ container.valid r.get_button_mappings ∧
        ((0 : Int), c.of_button .A) ∈ r.get_button_mappings ∧
        ∀ n : Int, (n, c.of_button .A) ∈ r.get_button_mappings → n = 0)
      (axis_map c) (fun r pair i hP _ _ => hP) (axis_map c) b1 (fun _ h => h)
      ⟨hname1, hvalid1, hmem1, honly1⟩
  have hfind : find_by_code ("txt_a", c.of_button .A) b2.get_button_mappings = 0 :=
    find_by_code_unique ("txt_a", c.of_button .A) 0 b2.get_button_mappings hmem2b honly2b
  /- the handler returns, and the name finds the binding it wrote to -/
  have hfound : (gamepad.hook.store_binding "pad" b2 [pad_with_a_on_0 container c]).find?
      (fun x => x.get_name == "pad") = some b2 :=
    get_binding_by_name_store "pad" (pad_with_a_on_0 container c) b2 _ rfl hname2
  have hsave : save_then_load container to_key c (rebound_onto_shared_code_dialog container c)
      = some (load_binding c b2 (rebound_onto_shared_code_dialog container c).ui) := by
    have hb : (rebound_onto_shared_code_dialog container c).hook_instance.get_binding_by_name
        (rebound_onto_shared_code_dialog container c).ui.cb_bindings.currentText
          = some (pad_with_a_on_0 container c) := rfl
    have hedits : (rebound_onto_shared_code_dialog container c).ui.line_edits
        = numbered_line_edits "1" := rfl
    have htext : (rebound_onto_shared_code_dialog container c).ui.cb_bindings.currentText
        = "pad" := rfl
    have hlist : (rebound_onto_shared_code_dialog container c).hook_instance.get_bindings
        = [pad_with_a_on_0 container c] := rfl
    unfold save_then_load on_box_binding_accepted
    simp only [hb, hedits, hstart, hrun1, hrun2]
    simp only [Option.some_bind, gamepad.hook.get_binding_by_name, gamepad.hook.write_binding,
      htext, hlist, hfound, Option.map_some']
  refine ⟨_, hsave, ?_⟩
  /- `load_binding`: the box of button A gets the old code, nothing else touches it -/
  have hsplit : button_map c = ("txt_a", c.of_button .A) :: (button_map c).drop 1 := rfl
  have hbox : findChild "txt_a"
      (load_binding.transfer b2.get_button_mappings (button_map c) (numbered_line_edits "1"))
      = findChild "txt_a" (setText_of_child "txt_a" (toString (0 : Int))
          (numbered_line_edits "1")) := by
    rw [hsplit, load_binding.transfer]
    simp only [hfind]
    rw [if_pos (by decide), load_transfer_other _ "txt_a" _ _ (other_names c).1]
  unfold shown_number
  rw [load_binding_line_edits,
    show (rebound_onto_shared_code_dialog container c).ui.line_edits
      = numbered_line_edits "1" from rfl,
    load_transfer_other _ "txt_a" _ _ (other_names c).2, hbox]
  decide

theorem stale_mapping_comes_back_witness :
    shown_number "txt_a"
        (rebound_onto_shared_code_dialog std_map sample_libgamepad.codes).ui.line_edits
      = some 1 ∧
    ∃ ui, save_then_load std_map id sample_libgamepad.codes
        (rebound_onto_shared_code_dialog std_map sample_libgamepad.codes) = some ui ∧
      shown_number "txt_a" ui.line_edits = some 0 :=
  stale_mapping_comes_back std_map id sample_libgamepad.codes (fun _ _ _ => rfl)
    sample_codes_injective.1

/-! ### `input_source::tick` -/

theorem overlay_refresh_data.sample_keeps_gamepad_fields :
    overlay_refresh_data.sample.keeps_gamepad_fields :=
  fun _ _ => ⟨rfl, rfl, rfl, rfl⟩

/-- C12: with `seconds` an exact non-negative number, `tick` looks up the
device by `gamepad_id` iff the layout has the `OF_GAMEPAD` flag, the source
has no gamepad and `gamepad_check_timer + seconds >= 1`, and then sets the
timer to 0 and the gamepad to what the lookup finds; with the flag set, no
gamepad and a sum below 1 the timer becomes the sum and the gamepad stays;
with the flag clear or a gamepad present both stay. So a timer in `[0, 1)`
stays in `[0, 1)`. `overlay::refresh_data` is assumed to leave the fields
`tick` reads alone. -/
theorem tick_requeries_gamepad (of : overlay_flags) (refresh_data : overlay_refresh_data)
    (hook : gamepad.hook) (s : input_source) (seconds : ℚ)
    (hrefresh : refresh_data.keeps_gamepad_fields) (hseconds : 0 ≤ seconds) :
    let wanted := has_flag s.m_settings.layout_flags of.OF_GAMEPAD = true ∧
      s.m_settings.gamepad = none
    let sum := s.m_settings.gamepad_check_timer + seconds
    let r := input_source.tick of refresh_data hook s seconds
    (r.2 ≠ [] ↔ wanted ∧ 1 ≤ sum) ∧
    (wanted ∧ 1 ≤ sum →
      r.2 = [s.m_settings.gamepad_id] ∧ r.1.m_settings.gamepad_check_timer = 0 ∧
      r.1.m_settings.gamepad
        = (hook.get_device_by_id s.m_settings.gamepad_id).bind hook.device_at) ∧
    (wanted ∧ sum < 1 →
      r.2 = [] ∧ r.1.m_settings.gamepad_check_timer = sum ∧
      r.1.m_settings.gamepad = s.m_settings.gamepad) ∧
    (¬ wanted →
      r.2 = [] ∧ r.1.m_settings.gamepad_check_timer = s.m_settings.gamepad_check_timer ∧
      r.1.m_settings.gamepad = s.m_settings.gamepad) ∧
    (0 ≤ s.m_settings.gamepad_check_timer ∧ s.m_settings.gamepad_check_timer < 1 →
      0 ≤ r.1.m_settings.gamepad_check_timer ∧ r.1.m_settings.gamepad_check_timer < 1) := by
  intro wanted sum r
  obtain ⟨hflags, hpad, hid, htimer⟩ := hrefresh s.m_settings s.m_overlay
  by_cases hloaded : s.m_overlay.is_loaded = true <;>
  by_cases hflag : has_flag s.m_settings.layout_flags of.OF_GAMEPAD = true <;>
  by_cases hnone : s.m_settings.gamepad = none <;>
  by_cases hsum : 1 ≤ s.m_settings.gamepad_check_timer + seconds <;>
  simp [r, wanted, sum, input_source.tick, hloaded, hflag, hnone, hsum, hflags, hpad, hid,
    htimer] <;>
  exact fun h0 _ => ⟨add_nonneg h0 hseconds, not_le.mp hsum⟩

theorem tick_requeries_gamepad_witness :
    (input_source.tick one_bit_flags overlay_refresh_data.sample {} waiting_source (3 / 4)).2
        = ["pad0"] ∧
    (input_source.tick one_bit_flags overlay_refresh_data.sample {} waiting_source
        (3 / 4)).1.m_settings.gamepad_check_timer = 0 ∧
    (input_source.tick one_bit_flags overlay_refresh_data.sample {} waiting_source
        (1 / 4)).1.m_settings.gamepad_check_timer = 3 / 4 :=
  have h1 := (tick_requeries_gamepad one_bit_flags overlay_refresh_data.sample {} waiting_source
    (3 / 4) overlay_refresh_data.sample_keeps_gamepad_fields (by norm_num)).2.1
      ⟨⟨by decide, rfl⟩, by norm_num [waiting_source]⟩
  have h2 := (tick_requeries_gamepad one_bit_flags overlay_refresh_data.sample {} waiting_source
    (1 / 4) overlay_refresh_data.sample_keeps_gamepad_fields (by norm_num)).2.2.1
      ⟨⟨by decide, rfl⟩, by norm_num [waiting_source]⟩
  ⟨h1.1, h1.2.1, by rw [h2.2.1]; norm_num [waiting_source]⟩

end InputOverlay
